import Mathlib

/-!
Verification of the family-emotions check-in and translation core.

This file gives a shallow embedding, in Lean, of the data model and the
operations of the repository (mood scoring, check-in completion, the daily
fan-out, weekly report generation, and the emotion-translation gateway with
its cache and quota checks), together with theorems settling the stated
properties. Machine reals are modelled by rationals, timestamps by integers,
UUIDs by naturals, and Python exceptions by explicit `Except` results.
-/

/-! ## String helpers (Python `str.lower` and the `in` substring test) -/

/-- Lower-case every character, modelling Python `str.lower()` on ASCII text. -/
def toLowerStr (s : String) : String := String.mk (s.data.map Char.toLower)

/-- Character-list match at the head position. -/
def startsWithChars : List Char → List Char → Bool
  | [], _ => true
  | _ :: _, [] => false
  | p :: ps, t :: ts => p == t && startsWithChars ps ts

/-- Character-list containment at any position. -/
def containsChars (pat : List Char) : List Char → Bool
  | [] => pat.isEmpty
  | t :: ts => startsWithChars pat (t :: ts) || containsChars pat ts

/-- Substring containment, modelling the Python `word in text` test. -/
def containsWord (text word : String) : Bool :=
  containsChars word.toList text.toList

/-! ## Rounding (Python `round(x, 2)` on a rational value)

Python `round` uses round-half-to-even. The binary floating-point inputs in
the source carry at most a handful of significant digits here, so the exact
rational rounding below is a faithful model. -/

/-- Round a rational to the nearest integer, ties going to the even integer. -/
def roundHalfToEven (x : ℚ) : ℤ :=
  let n := ⌊x⌋
  let frac := x - n
  if frac < 1/2 then n
  else if 1/2 < frac then n + 1
  else if n % 2 = 0 then n else n + 1

/-- Round to two decimal places, modelling `round(mood_value, 2)`. -/
def roundTo2 (x : ℚ) : ℚ := (roundHalfToEven (x * 100) : ℚ) / 100

/-! ## Exceptions

The application-level and domain-level exception classes that the claims
observe, with the message text each constructor produces
(`src/core/exceptions.py` and `src/core/domain/exceptions.py`). -/

/-- Exception taxonomy of the code paths under verification. -/
inductive AppError where
  | resourceNotFound (msg : String)
  | businessLogic (msg : String)
  | rateLimitExceeded (limit_type : String)
  | emotionTranslation (msg : String)
  | valueError (msg : String)
  deriving DecidableEq

/-- The `str(e)` rendering of each exception, as the wrapping handlers see it. -/
def AppError.message : AppError → String
  | .resourceNotFound m => m
  | .businessLogic m => m
  | .rateLimitExceeded t => "Rate limit exceeded (" ++ t ++ "). Please try again later."
  | .emotionTranslation m => "Emotion translation failed: " ++ m
  | .valueError m => m

/-! ## MoodScore.from_emotions (`src/core/domain/value_objects.py`, lines 107-141)

The `MoodScore` dataclass validates its value in `__post_init__`; an
out-of-range value raises `ValueError`, which the `Except` result models. -/

/-- Positive emotion lexicon of `MoodScore.from_emotions`. -/
def positive_emotions : List String :=
  ["joy", "happiness", "excitement", "love", "gratitude",
   "contentment", "pride", "hope", "amusement", "relief"]

/-- Negative emotion lexicon of `MoodScore.from_emotions`. -/
def negative_emotions : List String :=
  ["sadness", "anger", "fear", "disgust", "frustration",
   "disappointment", "anxiety", "guilt", "shame", "loneliness"]

namespace MoodScore

/-- Embedding of `MoodScore.from_emotions`. The input dictionary is an
association list with distinct keys (a Python dict); the result is the
constructed mood value, or the `ValueError` text when the `__post_init__`
range check rejects it. -/
def from_emotions (emotions : List (String × ℚ)) : Except String ℚ :=
  if emotions = [] then .ok 0
  else
    let positive_score :=
      ((emotions.filter (fun p => toLowerStr p.1 ∈ positive_emotions)).map Prod.snd).sum
    let negative_score :=
      ((emotions.filter (fun p => toLowerStr p.1 ∈ negative_emotions)).map Prod.snd).sum
    let total_weight := positive_score + negative_score
    if total_weight = 0 then .ok 0
    else
      let mood_value := (positive_score - negative_score) / total_weight
      let value := roundTo2 mood_value
      if value < -1 ∨ 1 < value then .error "Mood score must be between -1 and 1"
      else .ok value

end MoodScore

/-! ## Check-in models (`src/core/models/emotion.py`) -/

/-- Check-in type enumeration. -/
inductive CheckinType where
  | daily | weekly | monthly | custom
  deriving DecidableEq

/-- Response type enumeration. -/
inductive ResponseType where
  | text | voice | emoji | scale
  deriving DecidableEq

/-- The persisted `Checkin` row. The column `mood_score` is documented in the
model as a -1 to 1 scale. -/
structure Checkin where
  id : ℕ
  user_id : ℕ
  child_id : Option ℕ
  checkin_type : CheckinType
  question : String
  response_text : Option String := none
  response_type : ResponseType := .text
  response_metadata : Option (List (String × String)) := none
  detected_emotions : Option (List String) := none
  emotion_intensity : Option (List (String × ℚ)) := none
  mood_score : Option ℚ := none
  scheduled_at : Option ℤ := none
  completed_at : Option ℤ := none
  is_completed : Bool := false
  created_at : ℤ := 0
  deriving DecidableEq

/-! ## CheckinService._analyze_checkin_response
(`src/application/checkin_service.py`, lines 466-516) -/

/-- Positive keyword list of the inline sentiment analysis. -/
def positive_words : List String :=
  ["happy", "good", "great", "wonderful", "excited", "proud", "joyful"]

/-- Negative keyword list of the inline sentiment analysis. -/
def negative_words : List String :=
  ["sad", "angry", "frustrated", "upset", "worried", "scared", "difficult"]

/-- The dictionary returned by `_analyze_checkin_response`. -/
structure CheckinAnalysis where
  emotions : List String
  intensity : List (String × ℚ)
  mood_score : ℚ
  deriving DecidableEq

/-- Embedding of `CheckinService._analyze_checkin_response`: keyword counts,
a raw score in (-1, 1), the conversion to a 1-5 scale, and keyword-based
emotion detection. No step of the body can raise, so the fallback branch of
the source is dead and the function is total. -/
def analyze_checkin_response (response_text : String) : CheckinAnalysis :=
  let text_lower := toLowerStr response_text
  let positive_count : ℚ := ((positive_words.filter (containsWord text_lower ·)).length : ℚ)
  let negative_count : ℚ := ((negative_words.filter (containsWord text_lower ·)).length : ℚ)
  let mood_score : ℚ :=
    if positive_count = 0 ∧ negative_count = 0 then 0
    else (positive_count - negative_count) / (positive_count + negative_count + 1)
  let mood_score_5 : ℚ := ((mood_score + 1) / 2) * 4 + 1
  let detected_emotions : List String :=
    (if ["happy", "joy", "excited", "proud"].any (containsWord text_lower ·)
      then ["happy"] else []) ++
    (if ["sad", "disappointed", "down"].any (containsWord text_lower ·)
      then ["sad"] else []) ++
    (if ["angry", "frustrated", "mad"].any (containsWord text_lower ·)
      then ["angry"] else []) ++
    (if ["worried", "anxious", "scared"].any (containsWord text_lower ·)
      then ["anxious"] else [])
  { emotions := detected_emotions
    intensity := detected_emotions.map (fun e => (e, 7/10))
    mood_score := mood_score_5 }

/-! ## CheckinService.complete_checkin
(`src/application/checkin_service.py`, lines 140-208)

The method body runs inside a handler that re-raises every exception as
`BusinessLogicError("Failed to complete check-in: " + str(e))`. Mutations
are committed only after every possible raise, so a failing call leaves the
stored task list unchanged; the embedding returns errors without a store. -/

/-- Lookup of a check-in row by id (`scalar_one_or_none` on the id filter). -/
def find_checkin (checkins : List Checkin) (checkin_id : ℕ) : Option Checkin :=
  checkins.find? (fun c => c.id = checkin_id)

/-- The body of `complete_checkin` before the blanket exception handler. -/
def complete_checkin_inner (checkins : List Checkin) (checkin_id : ℕ)
    (response_text : String) (response_type : ResponseType)
    (response_metadata : Option (List (String × String))) (now : ℤ) :
    Except AppError (Checkin × List Checkin) :=
  match find_checkin checkins checkin_id with
  | none => .error (.resourceNotFound ("Check-in " ++ toString checkin_id ++ " not found"))
  | some checkin =>
    if checkin.is_completed then .error (.businessLogic "Check-in already completed")
    else
      let emotion_analysis := analyze_checkin_response response_text
      let updated : Checkin :=
        { checkin with
          response_text := some response_text
          response_type := response_type
          response_metadata := some (response_metadata.getD [])
          detected_emotions := some emotion_analysis.emotions
          emotion_intensity := some emotion_analysis.intensity
          mood_score := some emotion_analysis.mood_score
          is_completed := true
          completed_at := some now }
      .ok (updated, checkins.map (fun c => if c.id = checkin_id then updated else c))

/-- Embedding of `complete_checkin`, the blanket handler included. -/
def complete_checkin (checkins : List Checkin) (checkin_id : ℕ)
    (response_text : String) (response_type : ResponseType)
    (response_metadata : Option (List (String × String))) (now : ℤ) :
    Except AppError (Checkin × List Checkin) :=
  match complete_checkin_inner checkins checkin_id response_text response_type
      response_metadata now with
  | .ok r => .ok r
  | .error e => .error (.businessLogic ("Failed to complete check-in: " ++ e.message))

/-! ## Domain entity CheckIn (`src/core/domain/entities.py`, lines 190-251) -/

/-- The domain `CheckIn` entity (distinct from the persisted `Checkin` row). -/
structure CheckIn where
  user_id : ℕ
  child_id : Option ℕ
  question : String
  scheduled_at : ℤ
  response_text : Option String := none
  detected_emotions : List String := []
  mood_score : Option ℚ := none
  completed_at : Option ℤ := none
  deriving DecidableEq

namespace CheckIn

/-- Embedding of the `is_completed` property: completion time being set. -/
def is_completed (c : CheckIn) : Bool := c.completed_at.isSome

/-- Embedding of `CheckIn.skip`. The guard raises before any field is
written, so an error result corresponds to the entity being left untouched. -/
def skip (c : CheckIn) (now : ℤ) (reason : String := "Skipped by user") :
    Except String CheckIn :=
  if c.is_completed then .error "Check-in already completed"
  else .ok { c with
    response_text := some ("[SKIPPED] " ++ reason)
    completed_at := some now }

end CheckIn

/-! ## Supporting lemmas on the mood computation -/

/-- `roundTo2` maps the interval [-1, 1] into itself. -/
lemma roundTo2_mem_Icc {x : ℚ} (hl : -1 ≤ x) (hu : x ≤ 1) :
    -1 ≤ roundTo2 x ∧ roundTo2 x ≤ 1 := by
  have h100l : (-100 : ℚ) ≤ x * 100 := by linarith
  have h100u : x * 100 ≤ 100 := by linarith
  have hfl : (-100 : ℤ) ≤ ⌊x * 100⌋ := by
    have := Int.le_floor.mpr (show ((-100 : ℤ) : ℚ) ≤ x * 100 by exact_mod_cast h100l)
    exact this
  have hfu : ⌊x * 100⌋ ≤ 100 := by
    have := Int.floor_le_floor h100u
    simpa using this
  have hbound : (-100 : ℤ) ≤ roundHalfToEven (x * 100) ∧ roundHalfToEven (x * 100) ≤ 100 := by
    unfold roundHalfToEven
    have hfrac0 : (0 : ℚ) ≤ x * 100 - ⌊x * 100⌋ := by
      have := Int.floor_le (x * 100); linarith
    have hfrac1 : x * 100 - ⌊x * 100⌋ < 1 := by
      have := Int.lt_floor_add_one (x * 100); linarith
    by_cases h1 : x * 100 - ⌊x * 100⌋ < 1/2
    · simp only [h1, if_true]
      exact ⟨hfl, hfu⟩
    · have hup : ⌊x * 100⌋ + 1 ≤ 100 := by
        by_contra hcon
        push_neg at hcon
        have hf100 : ⌊x * 100⌋ = 100 := by omega
        have : x * 100 - ⌊x * 100⌋ ≤ 0 := by
          rw [hf100]; push_cast; linarith
        have : x * 100 - ⌊x * 100⌋ < 1/2 := by linarith
        exact h1 this
      simp only [h1, if_false]
      by_cases h2 : 1/2 < x * 100 - ⌊x * 100⌋
      · simp only [h2, if_true]
        constructor <;> omega
      · simp only [h2, if_false]
        by_cases h3 : ⌊x * 100⌋ % 2 = 0 <;> simp only [h3, if_true, if_false] <;>
          constructor <;> omega
  unfold roundTo2
  constructor
  · have hc : ((-100 : ℤ) : ℚ) ≤ (roundHalfToEven (x * 100) : ℚ) := by exact_mod_cast hbound.1
    rw [le_div_iff₀ (by norm_num : (0:ℚ) < 100)]
    push_cast at hc ⊢
    linarith
  · have hc : ((roundHalfToEven (x * 100) : ℚ)) ≤ ((100 : ℤ) : ℚ) := by exact_mod_cast hbound.2
    rw [div_le_iff₀ (by norm_num : (0:ℚ) < 100)]
    push_cast at hc ⊢
    linarith

/-- A dictionary of non-negative emotion weights never trips the range check:
`from_emotions` succeeds and its value lies in [-1, 1]. -/
lemma MoodScore.from_emotions_nonneg_ok (emotions : List (String × ℚ))
    (h : ∀ p ∈ emotions, 0 ≤ p.2) :
    ∃ v, MoodScore.from_emotions emotions = .ok v ∧ -1 ≤ v ∧ v ≤ 1 := by
  unfold MoodScore.from_emotions
  by_cases hemp : emotions = []
  · exact ⟨0, by simp [hemp], by norm_num, by norm_num⟩
  · simp only [hemp, if_false]
    set pos := ((emotions.filter (fun p => toLowerStr p.1 ∈ positive_emotions)).map Prod.snd).sum with hpos
    set neg := ((emotions.filter (fun p => toLowerStr p.1 ∈ negative_emotions)).map Prod.snd).sum with hneg
    have hposn : 0 ≤ pos := by
      rw [hpos]
      apply List.sum_nonneg
      intro q hq
      obtain ⟨p, hp, rfl⟩ := List.mem_map.mp hq
      exact h p (List.mem_of_mem_filter hp)
    have hnegn : 0 ≤ neg := by
      rw [hneg]
      apply List.sum_nonneg
      intro q hq
      obtain ⟨p, hp, rfl⟩ := List.mem_map.mp hq
      exact h p (List.mem_of_mem_filter hp)
    by_cases htot : pos + neg = 0
    · exact ⟨0, by simp [htot], by norm_num, by norm_num⟩
    · have htpos : 0 < pos + neg := lt_of_le_of_ne (by linarith) (Ne.symm htot)
      have hml : -1 ≤ (pos - neg) / (pos + neg) := by
        rw [le_div_iff₀ htpos]; linarith
      have hmu : (pos - neg) / (pos + neg) ≤ 1 := by
        rw [div_le_iff₀ htpos]; linarith
      obtain ⟨hrl, hru⟩ := roundTo2_mem_Icc hml hmu
      refine ⟨roundTo2 ((pos - neg) / (pos + neg)), ?_, hrl, hru⟩
      have hcond : ¬(roundTo2 ((pos - neg) / (pos + neg)) < -1 ∨
          1 < roundTo2 ((pos - neg) / (pos + neg))) := by
        push_neg
        exact ⟨by linarith, by linarith⟩
      simp only [htot, if_false, hcond]

/-! ## Claim theorems: mood scale of the check-in path (C1, C2) -/

/-- C1: the claim states that the mood score computed and persisted when a
check-in response is analyzed lies in [-1.0, 1.0]. The analysis path instead
rescales the raw score to a 1-5 scale before persisting it: on the concrete
response "He was very angry and threw his toys" the persisted value is 2,
which is greater than 1 and hence outside [-1, 1], contradicting the
documented -1-to-1 range of the `mood_score` column. -/
theorem C1_checkin_mood_persisted_outside_unit_interval :
    (analyze_checkin_response "He was very angry and threw his toys").mood_score = 2 ∧
    ¬((analyze_checkin_response "He was very angry and threw his toys").mood_score ≤ 1) := by
  have hm : (analyze_checkin_response "He was very angry and threw his toys").mood_score = 2 := by
    have hp : positive_words.filter
        (containsWord (toLowerStr "He was very angry and threw his toys") ·) = [] := by decide
    have hn : negative_words.filter
        (containsWord (toLowerStr "He was very angry and threw his toys") ·) = ["angry"] := by
      decide
    simp only [analyze_checkin_response, hp, hn]
    norm_num
  refine ⟨hm, ?_⟩
  rw [hm]
  norm_num

/-- A concrete pending check-in row used to evaluate `complete_checkin`. -/
def c2_checkin : Checkin :=
  { id := 1, user_id := 1, child_id := none, checkin_type := .daily
    question := "How was your day?", scheduled_at := some 0 }

/-- C2: completing a check-in with the response "He was very angry and threw
his toys" detects the emotion "angry", but the persisted mood score is 2 on
the 1-5 scale of the analysis path, not a negative value as the claim
states. -/
theorem C2_angry_response_detected_but_mood_not_negative :
    (complete_checkin [c2_checkin] 1 "He was very angry and threw his toys"
        ResponseType.text none 100).map (fun r => (r.1.detected_emotions, r.1.mood_score)) =
      .ok (some ["angry"], some 2) ∧ ¬((2:ℚ) < 0) := by
  have he : (analyze_checkin_response "He was very angry and threw his toys").emotions =
      ["angry"] := by
    simp only [analyze_checkin_response]; decide
  have hm : (analyze_checkin_response "He was very angry and threw his toys").mood_score = 2 := by
    have hp : positive_words.filter
        (containsWord (toLowerStr "He was very angry and threw his toys") ·) = [] := by decide
    have hn : negative_words.filter
        (containsWord (toLowerStr "He was very angry and threw his toys") ·) = ["angry"] := by
      decide
    simp only [analyze_checkin_response, hp, hn]
    norm_num
  have hi : (analyze_checkin_response "He was very angry and threw his toys").intensity =
      [("angry", 7/10)] := by
    have hdef : (analyze_checkin_response "He was very angry and threw his toys").intensity =
        (analyze_checkin_response "He was very angry and threw his toys").emotions.map
          (fun e => (e, 7/10)) := rfl
    rw [hdef, he]
    rfl
  refine ⟨?_, by norm_num⟩
  simp [complete_checkin, complete_checkin_inner, find_checkin, c2_checkin, he, hm, hi,
    Except.map]

/-! ## Claim theorem: skipping a check-in (C10) -/

/-- C10: skipping an already-terminal check-in raises (the guard fires before
any field assignment, so the entity is untouched); skipping a pending
check-in records the reason in `response_text`, sets `completed_at`, and
makes the entity terminal. -/
theorem C10_skip_terminal_rejected_pending_completed (c : CheckIn) (now : ℤ) (reason : String) :
    (c.completed_at ≠ none → c.skip now reason = .error "Check-in already completed") ∧
    (c.completed_at = none →
      c.skip now reason = .ok { c with
        response_text := some ("[SKIPPED] " ++ reason), completed_at := some now } ∧
      ({ c with
          response_text := some ("[SKIPPED] " ++ reason)
          completed_at := some now } : CheckIn).is_completed = true) := by
  constructor
  · intro h
    have hc : c.is_completed = true := by
      unfold CheckIn.is_completed
      cases hcc : c.completed_at with
      | none => exact absurd hcc h
      | some t => rfl
    simp [CheckIn.skip, hc]
  · intro h
    have hc : c.is_completed = false := by
      unfold CheckIn.is_completed
      rw [h]
      rfl
    refine ⟨by simp [CheckIn.skip, hc], ?_⟩
    simp [CheckIn.is_completed]

/-- A terminal check-in used as witness input. -/
def c10_terminal : CheckIn :=
  { user_id := 1, child_id := none, question := "q", scheduled_at := 0, completed_at := some 50 }

/-- A pending check-in used as witness input. -/
def c10_pending : CheckIn :=
  { user_id := 1, child_id := none, question := "q", scheduled_at := 0 }

/-- Witness for C10 at concrete terminal and pending check-ins. -/
theorem C10_skip_witness :
    (c10_terminal.skip 60 "busy" = .error "Check-in already completed") ∧
    (c10_pending.skip 60 "busy" = .ok { c10_pending with
        response_text := some ("[SKIPPED] " ++ "busy"), completed_at := some 60 }) :=
  ⟨(C10_skip_terminal_rejected_pending_completed c10_terminal 60 "busy").1 (by decide),
   ((C10_skip_terminal_rejected_pending_completed c10_pending 60 "busy").2 rfl).1⟩

/-! ## Weekly report generation
(`src/application/checkin_service.py`, lines 270-345, 518-647, and the
`weekly_reports` schema of `migrations/versions/001_initial_schema.py`)

Timestamps are whole days counted from a Monday epoch, so zeroing the time
of day is the identity and `now.weekday()` is `now mod 7`. The relational
store enforces the two partial unique indexes of the migration: one row per
(user, child, week_start) with a child, and one per (user, week_start)
without, which is one row per (user, optional child, week_start) overall. -/

/-- Translation status (`src/core/models/emotion.py`). -/
inductive TranslationStatus where
  | pending | processing | completed | failed
  deriving DecidableEq

/-- The persisted `EmotionTranslation` row, restricted to the fields the
report generator reads. -/
structure EmotionTranslationRow where
  user_id : ℕ
  child_id : Option ℕ
  created_at : ℤ
  status : TranslationStatus
  translated_emotions : List String
  deriving DecidableEq

/-- The persisted `WeeklyReport` row. -/
structure WeeklyReport where
  id : ℕ
  user_id : ℕ
  child_id : Option ℕ
  week_start : ℤ
  week_end : ℤ
  summary : String
  emotion_trends : List (String × ℕ)
  insights : List String
  recommendations : List String
  total_checkins : ℕ
  total_translations : ℕ
  average_mood_score : Option ℚ
  generated_at : ℤ
  deriving DecidableEq

/-- The relational store seen by the report generator. -/
structure ReportStore where
  checkins : List Checkin
  translations : List EmotionTranslationRow
  reports : List WeeklyReport
  next_report_id : ℕ
  deriving DecidableEq

/-- The parsed reply of the report prompt, `None` when the provider call or
its parse raised (which sends the generator to the fallback branch). The
`Option` fields model `dict.get` with a default. -/
structure ClaudeReportDict where
  summary : Option String
  insights : Option String
  recommendations : Option (List String)
  deriving DecidableEq

/-- The dictionary assembled by `_generate_report_with_claude`. -/
structure ReportData where
  summary : String
  emotion_trends : List (String × ℕ)
  insights : List String
  recommendations : List String
  deriving DecidableEq

/-- Day-granularity rendering of `strftime` date text in the fallback
summary; the calendar spelling is abstracted to the day number. -/
def formatDay (t : ℤ) : String := toString t

/-- Default week start: subtract `now.weekday()` days and zero the time. -/
def default_week_start (now : ℤ) : ℤ := now - now.emod 7

/-- Embedding of `_get_week_checkins`: completed check-ins of the user with
`created_at` in the window, filtered further by child when one is given. -/
def get_week_checkins (checkins : List Checkin) (user_id : ℕ) (child_id : Option ℕ)
    (week_start week_end : ℤ) : List Checkin :=
  let base := checkins.filter (fun c =>
    c.user_id = user_id ∧ week_start ≤ c.created_at ∧ c.created_at < week_end ∧
      c.is_completed = true)
  match child_id with
  | some cid => base.filter (fun c => c.child_id = some cid)
  | none => base

/-- Embedding of `_get_week_translations`: completed translations of the
user in the window, filtered further by child when one is given. -/
def get_week_translations (translations : List EmotionTranslationRow) (user_id : ℕ)
    (child_id : Option ℕ) (week_start week_end : ℤ) : List EmotionTranslationRow :=
  let base := translations.filter (fun t =>
    t.user_id = user_id ∧ week_start ≤ t.created_at ∧ t.created_at < week_end ∧
      t.status = TranslationStatus.completed)
  match child_id with
  | some cid => base.filter (fun t => t.child_id = some cid)
  | none => base

/-- One `emotion_counts[emotion] = emotion_counts.get(emotion, 0) + 1` step
on a Python dict kept as an insertion-ordered association list. -/
def bumpCount (acc : List (String × ℕ)) (e : String) : List (String × ℕ) :=
  if acc.any (fun p => p.1 = e) then
    acc.map (fun p => if p.1 = e then (p.1, p.2 + 1) else p)
  else acc ++ [(e, 1)]

/-- The emotion-frequency dictionary of `_generate_report_with_claude`. -/
def emotion_trend_counts (checkins : List Checkin)
    (translations : List EmotionTranslationRow) : List (String × ℕ) :=
  let fromCheckins := checkins.foldl
    (fun acc c => (c.detected_emotions.getD []).foldl bumpCount acc) []
  translations.foldl (fun acc t => t.translated_emotions.foldl bumpCount acc) fromCheckins

/-- Embedding of `_generate_report_with_claude`: the parsed provider reply
with `dict.get` defaults, or the deterministic fallback dictionary when the
provider call failed. -/
def generate_report_with_claude (claude : Option ClaudeReportDict)
    (checkins : List Checkin) (translations : List EmotionTranslationRow)
    (week_start week_end : ℤ) : ReportData :=
  match claude with
  | some report =>
    { summary := report.summary.getD "Weekly summary not available"
      emotion_trends := emotion_trend_counts checkins translations
      insights := [report.insights.getD "No insights available"]
      recommendations :=
        report.recommendations.getD ["Continue monitoring emotional development"] }
  | none =>
    { summary := "Week of " ++ formatDay week_start ++ " - " ++ formatDay week_end ++
        ". Completed " ++ toString checkins.length ++ " check-ins and " ++
        toString translations.length ++ " emotion translations."
      emotion_trends := []
      insights := ["Continue monitoring your child's emotional development."]
      recommendations := ["Keep using regular check-ins", "Continue emotion translation practice"] }

/-- Embedding of `_calculate_average_mood`. -/
def calculate_average_mood (checkins : List Checkin) : Option ℚ :=
  let mood_scores := checkins.filterMap (fun c => c.mood_score)
  if mood_scores = [] then none else some (mood_scores.sum / (mood_scores.length : ℚ))

/-- Embedding of `generate_weekly_report`. The method always builds and
inserts a fresh row; the commit enforces the unique indexes of the schema,
and the blanket handler wraps the resulting `IntegrityError` (whose driver
text is abstracted here) into a `BusinessLogicError`. -/
def generate_weekly_report (st : ReportStore) (user_id : ℕ) (child_id : Option ℕ)
    (week_start_arg : Option ℤ) (now : ℤ) (claude : Option ClaudeReportDict) :
    Except AppError (WeeklyReport × ReportStore) :=
  let week_start := match week_start_arg with
    | some w => w
    | none => default_week_start now
  let week_end := week_start + 7
  let checkins := get_week_checkins st.checkins user_id child_id week_start week_end
  let translations := get_week_translations st.translations user_id child_id week_start week_end
  let report_data := generate_report_with_claude claude checkins translations week_start week_end
  let report : WeeklyReport :=
    { id := st.next_report_id
      user_id := user_id
      child_id := child_id
      week_start := week_start
      week_end := week_end
      summary := report_data.summary
      emotion_trends := report_data.emotion_trends
      insights := report_data.insights
      recommendations := report_data.recommendations
      total_checkins := checkins.length
      total_translations := translations.length
      average_mood_score := calculate_average_mood checkins
      generated_at := now }
  if st.reports.any (fun r =>
      r.user_id = user_id ∧ r.child_id = child_id ∧ r.week_start = week_start) then
    .error (.businessLogic
      ("Failed to generate report: " ++ "duplicate key value violates unique constraint"))
  else
    .ok (report, { st with
      reports := st.reports ++ [report]
      next_report_id := st.next_report_id + 1 })

/-- An empty relational store for the report evaluation. -/
def rs0 : ReportStore := { checkins := [], translations := [], reports := [], next_report_id := 0 }

/-- A parsed provider reply for the report evaluation. -/
def cd0 : ClaudeReportDict :=
  { summary := some "s", insights := some "i", recommendations := some ["r"] }

/-- C3: weekly report generation is not idempotent. On an empty store the
first call inserts the report with id 0; repeating the call for the same
(user, dependent, week_start) does not return that report, it fails with a
`BusinessLogicError` wrapping the unique-index violation, because the method
never looks for an existing row before inserting. -/
theorem C3_second_generate_fails_instead_of_returning_existing :
    ∃ r st1,
      generate_weekly_report rs0 1 none (some 0) 10 (some cd0) = .ok (r, st1) ∧
      r.id = 0 ∧
      generate_weekly_report st1 1 none (some 0) 11 (some cd0) =
        .error (.businessLogic ("Failed to generate report: " ++
          "duplicate key value violates unique constraint")) := by
  refine ⟨_, _, rfl, rfl, rfl⟩

/-! ## Daily fan-out
(`src/application/checkin_service.py`, lines 77-138, 347-464)

Scheduler timestamps are minutes counted from a midnight Monday epoch, so
`now.replace(hour=h, minute=m, ...)` is `now - now mod 1440 + 60 * h + m`
and `now.weekday()` is `(now div 1440) mod 7`. Question selection
(`random.choice`) is modelled by an arbitrary selection function `choose`
passed to the embedding. -/

/-- A row of the `children` table. -/
structure ChildRow where
  id : ℕ
  parent_id : ℕ
  name : String
  age : ℕ
  deriving DecidableEq

/-- A row of the `users` table with its `children` relationship. -/
structure UserRow where
  id : ℕ
  is_active : Bool
  children : List ChildRow
  deriving DecidableEq

/-- The relational store seen by the fan-out. -/
structure SchedStore where
  users : List UserRow
  checkins : List Checkin
  next_checkin_id : ℕ
  deriving DecidableEq

/-- The toddler question bank. -/
def toddler_questions : List String :=
  ["How was your little one's mood today?",
   "Did they have any big feelings today?",
   "What made them happy today?",
   "Were there any challenging moments?",
   "How did they respond to comfort?"]

/-- The preschool question bank. -/
def preschool_questions : List String :=
  ["How did your child express their feelings today?",
   "What activities brought them joy?",
   "Were there any meltdowns or difficult moments?",
   "How did they interact with others?",
   "What helped them feel better when upset?"]

/-- The school-age question bank. -/
def school_age_questions : List String :=
  ["How was your child's emotional day?",
   "What challenged them today?",
   "What are they excited or worried about?",
   "How did they handle their feelings?",
   "What made them proud today?"]

/-- The teen question bank. -/
def teen_questions : List String :=
  ["How has your teenager been feeling lately?",
   "What's been on their mind recently?",
   "How are they coping with stress?",
   "What support do they seem to need?",
   "Have you noticed any mood changes?"]

/-- The `self._questions.get(age_category, self._questions["school_age"])`
lookup with its fallback. -/
def questions_for (age_category : String) : List String :=
  if age_category = "toddler" then toddler_questions
  else if age_category = "preschool" then preschool_questions
  else if age_category = "school_age" then school_age_questions
  else if age_category = "teen" then teen_questions
  else school_age_questions

/-- Embedding of `_generate_question`. The `checkin_type` argument of the
source is accepted and ignored, as in the source. -/
def generate_question (choose : List String → String) (child : Option ChildRow)
    (_checkin_type : CheckinType) : String :=
  match child with
  | none => "How are your children doing emotionally today?"
  | some child =>
    let age_category :=
      if child.age ≤ 3 then "toddler"
      else if child.age ≤ 5 then "preschool"
      else if child.age ≤ 12 then "school_age"
      else "teen"
    let questions := questions_for age_category
    let question := choose questions
    if child.name ≠ "" then
      (question.replace "your child" child.name).replace "they" child.name
    else question

/-- Embedding of `_get_next_checkin_time`. The configured check-in times
default to ["09:00", "18:00"], so the daily branch parses "09:00"; the
configured weekly report day defaults to 0 (Monday). -/
def get_next_checkin_time (now : ℤ) (checkin_type : CheckinType) : ℤ :=
  match checkin_type with
  | .daily =>
    let scheduled_time := now - now.emod 1440 + (9 * 60 + 0)
    if scheduled_time ≤ now then scheduled_time + 1440 else scheduled_time
  | .weekly =>
    let days_until_target := (0 - (now.ediv 1440).emod 7).emod 7
    let days_until_target := if days_until_target = 0 then 7 else days_until_target
    now + days_until_target * 1440
  | _ => now + 1440

/-- Lookup of a user row by id. -/
def find_user (users : List UserRow) (user_id : ℕ) : Option UserRow :=
  users.find? (fun u => u.id = user_id)

/-- Lookup of a child row by id over the whole `children` table. -/
def find_child_global (users : List UserRow) (child_id : ℕ) : Option ChildRow :=
  (users.flatMap (fun u => u.children)).find? (fun c => c.id = child_id)

/-- The body of `create_scheduled_checkin` before its blanket handler. -/
def create_scheduled_checkin_inner (choose : List String → String) (now : ℤ)
    (st : SchedStore) (user_id : ℕ) (child_id : Option ℕ)
    (checkin_type : CheckinType) (scheduled_at : Option ℤ) :
    Except AppError (Checkin × SchedStore) :=
  match find_user st.users user_id with
  | none => .error (.resourceNotFound ("User " ++ toString user_id ++ " not found"))
  | some _ =>
    let child_lookup : Except AppError (Option ChildRow) :=
      match child_id with
      | none => .ok none
      | some cid =>
        match find_child_global st.users cid with
        | none => .error (.resourceNotFound ("Child " ++ toString cid ++ " not found for user"))
        | some child =>
          if child.parent_id ≠ user_id then
            .error (.resourceNotFound ("Child " ++ toString cid ++ " not found for user"))
          else .ok (some child)
    match child_lookup with
    | .error e => .error e
    | .ok child =>
      let question := generate_question choose child checkin_type
      let sched := scheduled_at.getD (get_next_checkin_time now checkin_type)
      let checkin : Checkin :=
        { id := st.next_checkin_id
          user_id := user_id
          child_id := child_id
          checkin_type := checkin_type
          question := question
          response_type := .text
          scheduled_at := some sched
          is_completed := false
          created_at := now }
      .ok (checkin, { st with
        checkins := st.checkins ++ [checkin]
        next_checkin_id := st.next_checkin_id + 1 })

/-- Embedding of `create_scheduled_checkin`, the blanket handler included.
Every raise happens before `session.add`, so an error leaves the store as
it was. -/
def create_scheduled_checkin (choose : List String → String) (now : ℤ)
    (st : SchedStore) (user_id : ℕ) (child_id : Option ℕ)
    (checkin_type : CheckinType) (scheduled_at : Option ℤ) :
    Except AppError (Checkin × SchedStore) :=
  match create_scheduled_checkin_inner choose now st user_id child_id
      checkin_type scheduled_at with
  | .ok r => .ok r
  | .error e => .error (.businessLogic ("Failed to create check-in: " ++ e.message))

/-- The existing-check of the fan-out loop. `scalar_one_or_none` returns the
row when exactly one matches, and raises `MultipleResultsFound` (caught by
the per-user handler, which then skips the user) when several match, so the
net per-user effect is: skip whenever at least one uncompleted daily
check-in of the user exists. -/
def has_pending_daily (checkins : List Checkin) (user_id : ℕ) : Bool :=
  checkins.any (fun c =>
    c.user_id = user_id ∧ c.checkin_type = CheckinType.daily ∧ c.is_completed = false)

/-- The per-child creation loop of the fan-out. A raise inside the loop is
caught by the per-user handler, which abandons the remaining children of
that user and moves on. -/
def create_for_children (choose : List String → String) (now : ℤ) (user_id : ℕ) :
    SchedStore → List ChildRow → SchedStore
  | st, [] => st
  | st, c :: cs =>
    match create_scheduled_checkin choose now st user_id (some c.id)
        CheckinType.daily none with
    | .ok (_, st1) => create_for_children choose now user_id st1 cs
    | .error _ => st

/-- The per-user body of the fan-out loop, its `try` handler absorbed. -/
def process_user (choose : List String → String) (now : ℤ)
    (st : SchedStore) (u : UserRow) : SchedStore :=
  if has_pending_daily st.checkins u.id then st
  else
    match u.children with
    | [] =>
      match create_scheduled_checkin choose now st u.id none CheckinType.daily none with
      | .ok (_, st1) => st1
      | .error _ => st
    | c :: cs => create_for_children choose now u.id st (c :: cs)

/-- Embedding of `schedule_daily_checkins`: the active users are read once
and processed in order against the evolving store. The returned count of
the source is the number of appended rows and is not part of the store. -/
def schedule_daily_checkins (choose : List String → String) (now : ℤ)
    (st : SchedStore) : SchedStore :=
  (st.users.filter (fun u => u.is_active = true)).foldl (process_user choose now) st

/-! ## Lemmas for the fan-out idempotence -/

/-- The failure condition of `create_scheduled_checkin`: it depends only on
the `users` table, the requesting user id, and the optional child id. -/
def create_fails (users : List UserRow) (user_id : ℕ) (child_id : Option ℕ) : Bool :=
  match find_user users user_id with
  | none => true
  | some _ =>
    match child_id with
    | none => false
    | some cid =>
      match find_child_global users cid with
      | none => true
      | some child => child.parent_id ≠ user_id

/-- A successful create appends exactly the returned row and touches no
user. -/
lemma create_ok_shape {choose : List String → String} {now : ℤ} {st : SchedStore}
    {user_id : ℕ} {child_id : Option ℕ} {checkin_type : CheckinType}
    {scheduled_at : Option ℤ} {c : Checkin} {st' : SchedStore}
    (h : create_scheduled_checkin choose now st user_id child_id checkin_type
      scheduled_at = .ok (c, st')) :
    st'.users = st.users ∧ st'.checkins = st.checkins ++ [c] ∧
    c.user_id = user_id ∧ c.checkin_type = checkin_type ∧ c.is_completed = false := by
  unfold create_scheduled_checkin create_scheduled_checkin_inner at h
  cases hfu : find_user st.users user_id with
  | none => simp [hfu] at h
  | some u0 =>
    cases child_id with
    | none =>
      simp [hfu] at h
      obtain ⟨hc, hst⟩ := h
      subst hc; subst hst
      refine ⟨rfl, rfl, rfl, rfl, rfl⟩
    | some cid =>
      cases hfc : find_child_global st.users cid with
      | none => simp [hfu, hfc] at h
      | some child =>
        by_cases hpar : child.parent_id = user_id
        · simp [hfu, hfc, hpar] at h
          obtain ⟨hc, hst⟩ := h
          subst hc; subst hst
          refine ⟨rfl, rfl, rfl, rfl, rfl⟩
        · simp [hfu, hfc, hpar] at h

/-- Create succeeds exactly when the failure condition is off. -/
lemma create_isOk_eq (choose : List String → String) (now : ℤ) (st : SchedStore)
    (user_id : ℕ) (child_id : Option ℕ) (checkin_type : CheckinType)
    (scheduled_at : Option ℤ) :
    (create_scheduled_checkin choose now st user_id child_id checkin_type
      scheduled_at).isOk = !(create_fails st.users user_id child_id) := by
  unfold create_scheduled_checkin create_scheduled_checkin_inner create_fails
  cases hfu : find_user st.users user_id with
  | none => simp [Except.isOk, Except.toBool]
  | some u0 =>
    cases child_id with
    | none => simp [Except.isOk, Except.toBool]
    | some cid =>
      cases hfc : find_child_global st.users cid with
      | none => simp [hfc, Except.isOk, Except.toBool]
      | some child =>
        by_cases hpar : child.parent_id = user_id <;>
          simp [hfc, hpar, Except.isOk, Except.toBool]

/-- `Except.isOk = false` yields the error witness. -/
lemma isOk_false_error {α β : Type} {x : Except α β} (h : x.isOk = false) :
    ∃ e, x = .error e := by
  cases x with
  | error e => exact ⟨e, rfl⟩
  | ok v => simp [Except.isOk, Except.toBool] at h

/-- A member of the users table is found by its id. -/
lemma find_user_isSome {users : List UserRow} {u : UserRow} (h : u ∈ users) :
    (find_user users u.id).isSome := by
  rw [find_user, List.find?_isSome]
  exact ⟨u, h, by simp⟩

/-- The per-child loop preserves users and only appends check-ins. -/
lemma create_for_children_frame (choose : List String → String) (now : ℤ) (user_id : ℕ) :
    ∀ (cs : List ChildRow) (st : SchedStore),
      (create_for_children choose now user_id st cs).users = st.users ∧
      ∃ l, (create_for_children choose now user_id st cs).checkins = st.checkins ++ l := by
  intro cs
  induction cs with
  | nil =>
    intro st
    exact ⟨by trivial, ⟨[], by simp [create_for_children]⟩⟩
  | cons c cs ih =>
    intro st
    unfold create_for_children
    cases hcr : create_scheduled_checkin choose now st user_id (some c.id)
        CheckinType.daily none with
    | error e => exact ⟨rfl, [], by simp⟩
    | ok r =>
      obtain ⟨c0, st1⟩ := r
      obtain ⟨hu, hck, -, -, -⟩ := create_ok_shape hcr
      obtain ⟨hu2, l, hl⟩ := ih st1
      refine ⟨by rw [hu2, hu], [c0] ++ l, ?_⟩
      rw [hl, hck]
      simp

/-- Processing one user preserves users and only appends check-ins. -/
lemma process_user_frame (choose : List String → String) (now : ℤ)
    (st : SchedStore) (u : UserRow) :
    (process_user choose now st u).users = st.users ∧
    ∃ l, (process_user choose now st u).checkins = st.checkins ++ l := by
  unfold process_user
  by_cases hp : has_pending_daily st.checkins u.id = true
  · simp only [hp, if_true]
    exact ⟨by trivial, ⟨[], by simp⟩⟩
  · have hpb : has_pending_daily st.checkins u.id = false := by
      simpa using hp
    simp only [hpb, Bool.false_eq_true, if_false]
    cases hc : u.children with
    | nil =>
      cases hcr : create_scheduled_checkin choose now st u.id none
          CheckinType.daily none with
      | error e => exact ⟨by trivial, ⟨[], by simp⟩⟩
      | ok r =>
        obtain ⟨c0, st1⟩ := r
        obtain ⟨hu, hck, -, -, -⟩ := create_ok_shape hcr
        exact ⟨hu, [c0], hck⟩
    | cons c cs => exact create_for_children_frame choose now u.id (c :: cs) st

/-- A pending uncompleted daily check-in stays pending under appends. -/
lemma has_pending_mono (l1 l2 : List Checkin) (user_id : ℕ)
    (h : has_pending_daily l1 user_id = true) :
    has_pending_daily (l1 ++ l2) user_id = true := by
  rw [has_pending_daily, List.any_append]
  rw [has_pending_daily] at h
  rw [h]
  rfl

/-- A matching member witnesses a pending daily check-in. -/
lemma has_pending_of_mem {checkins : List Checkin} {user_id : ℕ} {c : Checkin}
    (hc : c ∈ checkins) (h1 : c.user_id = user_id)
    (h2 : c.checkin_type = CheckinType.daily) (h3 : c.is_completed = false) :
    has_pending_daily checkins user_id = true := by
  rw [has_pending_daily, List.any_eq_true]
  exact ⟨c, hc, by simp [h1, h2, h3]⟩

/-- A user is settled for the fan-out when an uncompleted daily check-in of
the user exists, or when processing the user is a no-op on every store with
the same users table (the deterministic child-lookup failure case). -/
def settled (choose : List String → String) (users : List UserRow)
    (checkins : List Checkin) (u : UserRow) : Prop :=
  has_pending_daily checkins u.id = true ∨
    ∀ (st2 : SchedStore) (now2 : ℤ), st2.users = users →
      process_user choose now2 st2 u = st2

/-- Settledness survives appending check-ins. -/
lemma settled_mono {choose : List String → String} {users : List UserRow}
    {checkins : List Checkin} {u : UserRow} (l : List Checkin)
    (h : settled choose users checkins u) : settled choose users (checkins ++ l) u :=
  h.imp (has_pending_mono checkins l u.id) id

/-- Processing a user with a pending daily check-in changes nothing. -/
lemma process_user_of_pending {choose : List String → String} {now : ℤ}
    {st : SchedStore} {u : UserRow}
    (hp : has_pending_daily st.checkins u.id = true) :
    process_user choose now st u = st := by
  simp [process_user, hp]

/-- After processing, every member user is settled. -/
lemma process_user_settles (choose : List String → String) (now : ℤ)
    (st : SchedStore) (u : UserRow) (hmem : u ∈ st.users) :
    settled choose st.users (process_user choose now st u).checkins u := by
  by_cases hp : has_pending_daily st.checkins u.id = true
  · rw [process_user_of_pending hp]
    exact .inl hp
  · have hpb : has_pending_daily st.checkins u.id = false := by simpa using hp
    cases hc : u.children with
    | nil =>
      have hok : (create_scheduled_checkin choose now st u.id none
          CheckinType.daily none).isOk = true := by
        rw [create_isOk_eq]
        have hsome := find_user_isSome hmem
        rw [create_fails]
        cases hfu : find_user st.users u.id with
        | none => rw [hfu] at hsome; simp at hsome
        | some v => rfl
      obtain ⟨r, hr⟩ : ∃ r, create_scheduled_checkin choose now st u.id none
          CheckinType.daily none = .ok r := by
        cases hcr : create_scheduled_checkin choose now st u.id none
            CheckinType.daily none with
        | ok r => exact ⟨r, rfl⟩
        | error e => rw [hcr] at hok; simp [Except.isOk, Except.toBool] at hok
      obtain ⟨c0, st1⟩ := r
      obtain ⟨hu, hck, hc1, hc2, hc3⟩ := create_ok_shape hr
      have hres : process_user choose now st u = st1 := by
        simp [process_user, hpb, hc, hr]
      rw [hres]
      left
      rw [hck]
      exact has_pending_of_mem (by simp) hc1 hc2 hc3
    | cons c cs =>
      cases hcr : create_scheduled_checkin choose now st u.id (some c.id)
          CheckinType.daily none with
      | error e =>
        have hfail : create_fails st.users u.id (some c.id) = true := by
          have hiso := create_isOk_eq choose now st u.id (some c.id) CheckinType.daily none
          rw [hcr] at hiso
          simp [Except.isOk, Except.toBool] at hiso
          cases hcf : create_fails st.users u.id (some c.id) with
          | true => rfl
          | false => rw [hcf] at hiso; simp at hiso
        right
        intro st2 now2 husers
        by_cases hp2 : has_pending_daily st2.checkins u.id = true
        · exact process_user_of_pending hp2
        · have hp2b : has_pending_daily st2.checkins u.id = false := by simpa using hp2
          have hok2 : (create_scheduled_checkin choose now2 st2 u.id (some c.id)
              CheckinType.daily none).isOk = false := by
            rw [create_isOk_eq, husers, hfail]
            rfl
          obtain ⟨e2, he2⟩ := isOk_false_error hok2
          simp [process_user, hp2b, hc, create_for_children, he2]
      | ok r =>
        obtain ⟨c0, st1⟩ := r
        obtain ⟨hu, hck, hc1, hc2, hc3⟩ := create_ok_shape hcr
        have hres : process_user choose now st u =
            create_for_children choose now u.id st1 cs := by
          simp [process_user, hpb, hc, create_for_children, hcr]
        rw [hres]
        obtain ⟨hu2, l, hl⟩ := create_for_children_frame choose now u.id cs st1
        left
        rw [hl, hck]
        exact has_pending_of_mem (by simp) hc1 hc2 hc3

/-- The fan-out fold preserves users and only appends check-ins. -/
lemma fold_process_frame (choose : List String → String) (now : ℤ) :
    ∀ (us : List UserRow) (st : SchedStore),
      ((us.foldl (process_user choose now) st).users = st.users ∧
       ∃ l, (us.foldl (process_user choose now) st).checkins = st.checkins ++ l) := by
  intro us
  induction us with
  | nil => exact fun st => ⟨by trivial, ⟨[], by simp⟩⟩
  | cons v vs ih =>
    intro st
    rw [List.foldl_cons]
    obtain ⟨hu1, l1, hl1⟩ := process_user_frame choose now st v
    obtain ⟨hu2, l2, hl2⟩ := ih (process_user choose now st v)
    refine ⟨by rw [hu2, hu1], l1 ++ l2, ?_⟩
    rw [hl2, hl1]
    simp

/-- After one fan-out pass, every processed member user is settled. -/
lemma fold_process_settles (choose : List String → String) (now : ℤ) :
    ∀ (us : List UserRow) (st : SchedStore), (∀ u ∈ us, u ∈ st.users) →
      ∀ u ∈ us, settled choose st.users
        ((us.foldl (process_user choose now) st).checkins) u := by
  intro us
  induction us with
  | nil => intro st _ u hu; exact absurd hu (List.not_mem_nil u)
  | cons v vs ih =>
    intro st hmem u hu
    rw [List.foldl_cons]
    obtain ⟨hu1, l1, hl1⟩ := process_user_frame choose now st v
    rcases List.mem_cons.mp hu with rfl | hu2
    · have hs := process_user_settles choose now st u (hmem u (by simp))
      obtain ⟨hu3, l2, hl2⟩ := fold_process_frame choose now vs (process_user choose now st u)
      rw [hl2]
      exact settled_mono l2 hs
    · have hmem2 : ∀ w ∈ vs, w ∈ (process_user choose now st v).users := by
        intro w hw
        rw [hu1]
        exact hmem w (by simp [hw])
      have := ih (process_user choose now st v) hmem2 u hu2
      rw [hu1] at this
      exact this

/-- A fan-out pass over settled users changes nothing. -/
lemma fold_process_noop (choose : List String → String) (now2 : ℤ) :
    ∀ (us : List UserRow) (st : SchedStore),
      (∀ u ∈ us, settled choose st.users st.checkins u) →
      us.foldl (process_user choose now2) st = st := by
  intro us
  induction us with
  | nil => intro st _; rfl
  | cons v vs ih =>
    intro st hs
    rw [List.foldl_cons]
    have hv : process_user choose now2 st v = st := by
      rcases hs v (by simp) with hp | hnoop
      · exact process_user_of_pending hp
      · exact hnoop st now2 rfl
    rw [hv]
    exact ih st (fun u hu => hs u (by simp [hu]))

/-- C4: the daily fan-out is idempotent. A second run, at any later time of
the same day or otherwise, leaves the store produced by the first run
unchanged: every active user either had an uncompleted daily check-in
already (and is skipped), or received one per dependent, or one generic
one, or deterministically fails child validation so that both runs skip the
user identically. -/
theorem C4_schedule_daily_checkins_idempotent (choose : List String → String)
    (now1 now2 : ℤ) (st : SchedStore) :
    schedule_daily_checkins choose now2 (schedule_daily_checkins choose now1 st) =
      schedule_daily_checkins choose now1 st := by
  have hframe := fold_process_frame choose now1
    (st.users.filter (fun u => u.is_active = true)) st
  have husers : (schedule_daily_checkins choose now1 st).users = st.users := hframe.1
  have hsettled : ∀ u ∈ st.users.filter (fun u => u.is_active = true),
      settled choose st.users (schedule_daily_checkins choose now1 st).checkins u := by
    intro u hu
    exact fold_process_settles choose now1
      (st.users.filter (fun u => u.is_active = true)) st
      (fun w hw => List.mem_of_mem_filter hw) u hu
  conv_lhs => rw [schedule_daily_checkins]
  rw [husers]
  apply fold_process_noop
  intro u hu
  rw [husers]
  exact hsettled u hu

/-! ## Emotion translation gateway
(`src/core/services/emotion_translator_service.py`,
`src/core/domain/aggregates.py`, `src/core/domain/entities.py`,
`src/core/domain/value_objects.py`, `src/infrastructure/cache/redis_service.py`)

The provider call of the non-cached path is `claude_service.generate_completion`,
a method the repository does not define on `ClaudeService` (only its callers
exist); its outcome, and the JSON shape of the reply, enter the embedding as
an explicit parameter. Confidence values are rationals; the float-to-text
round trips of the cache serializer are exact on them. -/

/-- Emotion intensity levels (`EmotionIntensity` enum). -/
inductive EmotionIntensity where
  | very_low | low | moderate | high | very_high
  deriving DecidableEq

/-- The numeric value of an intensity level. -/
def EmotionIntensity.val : EmotionIntensity → ℕ
  | .very_low => 1
  | .low => 2
  | .moderate => 3
  | .high => 4
  | .very_high => 5

/-- The `EmotionIntensity(value)` enum constructor: defined on 1..5, a
`ValueError` otherwise. -/
def EmotionIntensity.ofValue : ℤ → Option EmotionIntensity
  | 1 => some .very_low
  | 2 => some .low
  | 3 => some .moderate
  | 4 => some .high
  | 5 => some .very_high
  | _ => none

/-- An emotion insight value object. -/
structure EmotionInsight where
  emotion : String
  intensity : EmotionIntensity
  confidence : ℚ
  explanation : String
  suggested_responses : List String
  deriving DecidableEq

/-- The `__post_init__` validation of `EmotionInsight`. -/
def EmotionInsight.valid (i : EmotionInsight) : Bool :=
  0 ≤ i.confidence ∧ i.confidence ≤ 1 ∧
    i.suggested_responses ≠ [] ∧ i.suggested_responses.length ≤ 5

/-- A translation request; only the fields the service reads downstream are
kept (the context fields other than the age feed nothing but the prompt
text, which the provider parameter absorbs). `__post_init__` rejects blank
or over-long messages and unknown styles. -/
structure TranslationRequest where
  original_message : String
  child_age : ℕ
  parent_language : String
  response_style : String := "supportive"
  deriving DecidableEq

/-- The `__post_init__` validation of `TranslationRequest`. -/
def TranslationRequest.valid (r : TranslationRequest) : Bool :=
  ¬(r.original_message.data.all Char.isWhitespace) ∧
    r.original_message.data.length ≤ 5000 ∧
    (r.response_style = "supportive" ∨ r.response_style = "educational" ∨
     r.response_style = "playful" ∨ r.response_style = "calm")

/-- A child of the user aggregate; only the age feeds the embedded paths. -/
structure DomainChild where
  id : ℕ
  age : ℕ
  deriving DecidableEq

/-- The user aggregate root, restricted to the fields of the quota logic and
the translation flow. -/
structure DomainUser where
  id : ℕ
  language_code : String := "en"
  subscription_status : String := "free"
  daily_requests_count : ℕ := 0
  last_request_date : Option ℤ := none
  children : List DomainChild := []
  deriving DecidableEq

/-- `SubscriptionPlan` daily translation limits, with the `plans.get(...,
FREE)` fallback of `subscription_plan`. -/
def daily_translation_limit (status : String) : ℕ :=
  if status = "free" then 10
  else if status = "premium" then 100
  else if status = "trial" then 50
  else 10

/-- `SubscriptionPlan` daily check-in limits, same fallback. -/
def daily_checkin_limit (status : String) : ℕ :=
  if status = "free" then 3
  else if status = "premium" then 20
  else if status = "trial" then 10
  else 3

namespace DomainUser

/-- Embedding of `User.can_make_request`: reset the counter on a date
change, then compare against the limit of the request type. The mutated
aggregate is returned alongside the verdict; it is persisted only if the
caller later stores it. -/
def can_make_request (u : DomainUser) (request_type : String) (today : ℤ) :
    Bool × DomainUser :=
  let u := if u.last_request_date ≠ some today then
      { u with daily_requests_count := 0, last_request_date := some today }
    else u
  let limit :=
    if request_type = "translation" then daily_translation_limit u.subscription_status
    else if request_type = "checkin" then daily_checkin_limit u.subscription_status
    else 10
  (u.daily_requests_count < limit, u)

/-- Embedding of `User.increment_request_count` (the emitted domain event is
not observed by any claim). -/
def increment_request_count (u : DomainUser) (today : ℤ) : DomainUser :=
  let u := if u.last_request_date ≠ some today then
      { u with daily_requests_count := 0, last_request_date := some today }
    else u
  { u with daily_requests_count := u.daily_requests_count + 1 }

/-- Embedding of `User.get_child`. -/
def get_child (u : DomainUser) (child_id : ℕ) : Option DomainChild :=
  u.children.find? (fun c => c.id = child_id)

end DomainUser

/-- A cached insight as serialized by `_serialize_translation`. -/
structure SerializedInsight where
  emotion : String
  intensity : ℕ
  confidence : ℚ
  explanation : String
  suggested_responses : List String
  deriving DecidableEq

/-- A cached translation payload as serialized by `_serialize_translation`. -/
structure SerializedTranslation where
  insights : List SerializedInsight
  mood_score : Option ℚ
  processing_time_ms : Option ℤ
  deriving DecidableEq

/-- A cache entry with its absolute expiry time. -/
structure CacheEntry where
  payload : SerializedTranslation
  expires_at : ℤ
  deriving DecidableEq

/-- The key-value cache: `get` returns only unexpired entries. -/
def redis_get (cache : List (String × CacheEntry)) (key : String) (now : ℤ) :
    Option SerializedTranslation :=
  match cache.find? (fun p => p.1 = key) with
  | some p => if now < p.2.expires_at then some p.2.payload else none
  | none => none

/-- The key-value cache: `set` with a TTL overwrites the key. -/
def redis_set (cache : List (String × CacheEntry)) (key : String)
    (payload : SerializedTranslation) (expire : ℤ) (now : ℤ) :
    List (String × CacheEntry) :=
  let entry : CacheEntry := { payload := payload, expires_at := now + expire }
  if cache.any (fun p => p.1 = key) then
    cache.map (fun p => if p.1 = key then (key, entry) else p)
  else cache ++ [(key, entry)]

/-- The emotion translation entity. Entity ids are random UUIDs and are
observed by no claim, so they are not modelled. -/
structure EmotionTranslation where
  request : TranslationRequest
  user_id : ℕ
  child_id : Option ℕ
  insights : List EmotionInsight := []
  mood_score : Option ℚ := none
  processing_time_ms : Option ℤ := none
  deriving DecidableEq

/-- One `emotions[key] = value` assignment on an insertion-ordered dict. -/
def dict_insert (acc : List (String × ℚ)) (kv : String × ℚ) : List (String × ℚ) :=
  if acc.any (fun p => p.1 = kv.1) then
    acc.map (fun p => if p.1 = kv.1 then (p.1, kv.2) else p)
  else acc ++ [kv]

/-- The dict comprehension of `calculate_mood_score`: later duplicate
emotions overwrite earlier values. -/
def dict_of (pairs : List (String × ℚ)) : List (String × ℚ) :=
  pairs.foldl dict_insert []

namespace EmotionTranslation

/-- Embedding of `EmotionTranslation.calculate_mood_score`. With no
insights the method returns a zero score without assigning the field, so
the entity keeps `mood_score = None`. -/
def calculate_mood_score (t : EmotionTranslation) : Except String EmotionTranslation :=
  if t.insights = [] then .ok t
  else
    let emotions := dict_of (t.insights.map
      (fun i => (i.emotion, i.confidence * (i.intensity.val : ℚ) / 5)))
    match MoodScore.from_emotions emotions with
    | .error e => .error e
    | .ok v => .ok { t with mood_score := some v }

end EmotionTranslation

/-- One parsed insight dictionary of the provider reply; `Option` fields
model `dict.get` with the source defaults. -/
structure RawInsight where
  emotion : Option String
  intensity : Option ℤ
  confidence : Option ℚ
  explanation : Option String
  suggested_responses : Option (List String)
  deriving DecidableEq

/-- The provider reply as seen by `_parse_claude_response`: either text
with no parseable JSON structure, or a parsed insights list. -/
inductive ClaudeReply where
  | malformed
  | insights (l : List RawInsight)
  deriving DecidableEq

/-- The fixed low-confidence default insight used when parsing fails. -/
def default_insights : List EmotionInsight :=
  [{ emotion := "uncertain"
     intensity := .moderate
     confidence := 3/10
     explanation := "Unable to fully analyze the emotional content"
     suggested_responses :=
       ["Tell me more about how you're feeling",
        "I'm here to listen",
        "Your feelings are important"] }]

/-- Construction of one `EmotionInsight` from a parsed dictionary: the
intensity is clamped into 1..5 before the enum lookup, and `__post_init__`
rejects invalid confidence or response lists with a `ValueError`. -/
def parse_raw_insight (d : RawInsight) : Except String EmotionInsight :=
  let intensity_value := d.intensity.getD 3
  match EmotionIntensity.ofValue (min (max intensity_value 1) 5) with
  | none => .error "invalid intensity"
  | some intensity =>
    let i : EmotionInsight :=
      { emotion := d.emotion.getD "unknown"
        intensity := intensity
        confidence := d.confidence.getD (1/2)
        explanation := d.explanation.getD ""
        suggested_responses := d.suggested_responses.getD ["I understand how you feel"] }
    if i.valid then .ok i else .error "invalid insight"

/-- The insight loop of `_parse_claude_response`: the first raise discards
everything built so far. -/
def parse_raw_insights : List RawInsight → Except String (List EmotionInsight)
  | [] => .ok []
  | d :: ds =>
    match parse_raw_insight d with
    | .error e => .error e
    | .ok i =>
      match parse_raw_insights ds with
      | .error e => .error e
      | .ok l => .ok (i :: l)

/-- Embedding of `_parse_claude_response`: a malformed reply, or any raise
while building insights, is recovered into the default insight list. -/
def parse_claude_response (reply : ClaudeReply) : List EmotionInsight :=
  match reply with
  | .malformed => default_insights
  | .insights l =>
    match parse_raw_insights l with
    | .ok insights => insights
    | .error _ => default_insights

/-- Embedding of `_serialize_translation` for one insight. -/
def serialize_insight (i : EmotionInsight) : SerializedInsight :=
  { emotion := i.emotion
    intensity := i.intensity.val
    confidence := i.confidence
    explanation := i.explanation
    suggested_responses := i.suggested_responses }

/-- Embedding of `_serialize_translation`. -/
def serialize_translation (t : EmotionTranslation) : SerializedTranslation :=
  { insights := t.insights.map serialize_insight
    mood_score := t.mood_score
    processing_time_ms := t.processing_time_ms }

/-- Reconstruction of one cached insight; an invalid stored intensity or an
invalid insight raises a `ValueError` that `_parse_cached_response` does not
catch. -/
def parse_cached_insight (d : SerializedInsight) : Except String EmotionInsight :=
  match EmotionIntensity.ofValue (d.intensity : ℤ) with
  | none => .error "invalid intensity value"
  | some intensity =>
    let i : EmotionInsight :=
      { emotion := d.emotion
        intensity := intensity
        confidence := d.confidence
        explanation := d.explanation
        suggested_responses := d.suggested_responses }
    if i.valid then .ok i else .error "invalid insight"

/-- The insight loop of `_parse_cached_response`. -/
def parse_cached_insights : List SerializedInsight → Except String (List EmotionInsight)
  | [] => .ok []
  | d :: ds =>
    match parse_cached_insight d with
    | .error e => .error e
    | .ok i =>
      match parse_cached_insights ds with
      | .error e => .error e
      | .ok l => .ok (i :: l)

/-- Embedding of `_parse_cached_response`: rebuild the entity with zero
processing time, the cached insights, and the cached mood score. -/
def parse_cached_response (data : SerializedTranslation) (request : TranslationRequest)
    (user_id : ℕ) (child_id : Option ℕ) : Except String EmotionTranslation :=
  match parse_cached_insights data.insights with
  | .error e => .error e
  | .ok insights =>
    .ok { request := request
          user_id := user_id
          child_id := child_id
          insights := insights
          mood_score := data.mood_score
          processing_time_ms := some 0 }

/-- `message[:100]`, sliced by characters as in Python. -/
def take100 (s : String) : String := String.mk (s.data.take 100)

/-- Embedding of `_get_cache_key`: the colon-joined key parts. -/
def get_cache_key (r : TranslationRequest) : String :=
  String.intercalate ":"
    ["emotion_translation", take100 r.original_message, toString r.child_age,
     r.parent_language, r.response_style]

/-- The persistent state crossed by the translator: the user store, the
translation repository, and the cache. -/
structure TranslatorState where
  users : List DomainUser
  translations : List EmotionTranslation
  cache : List (String × CacheEntry)
  deriving DecidableEq

/-- Lookup of a user aggregate by id. -/
def find_domain_user (users : List DomainUser) (user_id : ℕ) : Option DomainUser :=
  users.find? (fun u => u.id = user_id)

/-- `user_repository.update`: store the aggregate under its id. -/
def update_domain_user (users : List DomainUser) (u : DomainUser) : List DomainUser :=
  users.map (fun v => if v.id = u.id then u else v)

/-- The outcome of the `generate_completion` provider call: a reply text
(already split into parseable-or-not form), or a raise. An HTTP 429 is a
raise on this path: the `ClaudeService` handler maps it to an exception
(`RateLimitExceededError` by its docstring; in fact constructing that
exception with `service_name`/`status_code` keyword arguments itself raises
`TypeError`), never to a structured result, and carries the given text. -/
inductive ProviderOutcome where
  | reply (r : ClaudeReply)
  | raised (msg : String)
  deriving DecidableEq

/-- Embedding of `EmotionTranslatorService.translate_emotion`. Every branch
returns the resulting persistent state next to the result; the state is
written only by the cache set, the repository save, and the user update of
the non-cached success path, all of which the source reaches together. -/
def translate_emotion (st : TranslatorState) (user_id : ℕ) (message : String)
    (child_id : Option ℕ) (context_age : Option ℕ) (use_cache : Bool)
    (today : ℤ) (now : ℤ) (provider : ProviderOutcome) (elapsed_ms : ℤ) :
    Except AppError EmotionTranslation × TranslatorState :=
  match find_domain_user st.users user_id with
  | none => (.error (.emotionTranslation "User not found"), st)
  | some user =>
    let cm := user.can_make_request "translation" today
    if cm.1 = false then (.error (.rateLimitExceeded "daily"), st)
    else
      let user := cm.2
      let resolved_age : Option ℕ :=
        match context_age, child_id with
        | some a, _ => some a
        | none, some cid => (user.get_child cid).map (fun c => c.age)
        | none, none => none
      let request : TranslationRequest :=
        { original_message := message
          child_age := resolved_age.getD 7
          parent_language := user.language_code }
      if request.valid = false then (.error (.valueError "invalid request"), st)
      else
        let cache_key := get_cache_key request
        match (if use_cache then redis_get st.cache cache_key now else none) with
        | some cached =>
          (match parse_cached_response cached request user_id child_id with
           | .ok t => (.ok t, st)
           | .error e => (.error (.valueError e), st))
        | none =>
          let translation : EmotionTranslation :=
            { request := request, user_id := user_id, child_id := child_id }
          match provider with
          | .raised msg =>
            (.error (.emotionTranslation ("Translation failed: " ++ msg)), st)
          | .reply reply =>
            let insights := parse_claude_response reply
            let translation := { translation with
              insights := translation.insights ++ insights }
            match translation.calculate_mood_score with
            | .error e =>
              (.error (.emotionTranslation ("Translation failed: " ++ e)), st)
            | .ok translation =>
              let translation := { translation with processing_time_ms := some elapsed_ms }
              let cache2 :=
                if use_cache then
                  redis_set st.cache cache_key (serialize_translation translation) 3600 now
                else st.cache
              let users2 := update_domain_user st.users
                (user.increment_request_count today)
              (.ok translation,
               { users := users2
                 translations := st.translations ++ [translation]
                 cache := cache2 })

/-! ## Claim theorems: completion failure modes (C8) -/

/-- C8 counterexample: on an empty store, completing a missing task surfaces
a `BusinessLogicError` whose message wraps the internal not-found text; the
caller does not receive the `ResourceNotFoundError` itself, because the
blanket handler of `complete_checkin` re-raises everything as
`BusinessLogicError`. -/
theorem C8_missing_task_error_is_wrapped :
    complete_checkin [] 0 "hi" ResponseType.text none 0 =
      .error (.businessLogic "Failed to complete check-in: Check-in 0 not found") ∧
    complete_checkin [] 0 "hi" ResponseType.text none 0 ≠
      .error (.resourceNotFound "Check-in 0 not found") := by
  have h1 : complete_checkin [] 0 "hi" ResponseType.text none 0 =
      .error (.businessLogic "Failed to complete check-in: Check-in 0 not found") := rfl
  refine ⟨h1, ?_⟩
  rw [h1]
  intro h
  simp at h

/-- A completed check-in row used for the terminal-state case. -/
def c8_done : Checkin :=
  { id := 3, user_id := 1, child_id := none, checkin_type := .daily
    question := "q", is_completed := true, completed_at := some 5 }

/-- C8 amended: a missing task id fails with `BusinessLogicError` wrapping
the not-found message, a terminal task fails with `BusinessLogicError`
wrapping the already-completed message, and in both cases no updated store
is produced (every raise precedes the session mutation and commit). -/
theorem C8_complete_checkin_failure_modes (checkins : List Checkin) (checkin_id : ℕ)
    (response_text : String) (response_type : ResponseType)
    (response_metadata : Option (List (String × String))) (now : ℤ) :
    (find_checkin checkins checkin_id = none →
      complete_checkin checkins checkin_id response_text response_type
          response_metadata now =
        .error (.businessLogic ("Failed to complete check-in: Check-in " ++
          toString checkin_id ++ " not found"))) ∧
    (∀ c, find_checkin checkins checkin_id = some c → c.is_completed = true →
      complete_checkin checkins checkin_id response_text response_type
          response_metadata now =
        .error (.businessLogic "Failed to complete check-in: Check-in already completed")) := by
  constructor
  · intro h
    unfold complete_checkin complete_checkin_inner
    rw [h]
    rfl
  · intro c hc hdone
    unfold complete_checkin complete_checkin_inner
    rw [hc]
    simp [hdone, AppError.message]

/-- Witness for C8 at an empty store and at a store with one terminal row. -/
theorem C8_failure_modes_witness :
    complete_checkin [] 7 "hi" ResponseType.text none 0 =
      .error (.businessLogic "Failed to complete check-in: Check-in 7 not found") ∧
    complete_checkin [c8_done] 3 "hi" ResponseType.text none 9 =
      .error (.businessLogic "Failed to complete check-in: Check-in already completed") :=
  ⟨(C8_complete_checkin_failure_modes [] 7 "hi" ResponseType.text none 0).1 (by decide),
   (C8_complete_checkin_failure_modes [c8_done] 3 "hi" ResponseType.text none 9).2
     c8_done (by decide) (by decide)⟩

/-! ## Lemmas for the translation gateway -/

/-- The quota check does not change the user id. -/
lemma can_make_request_id (u : DomainUser) (rt : String) (d : ℤ) :
    ((u.can_make_request rt d).2).id = u.id := by
  unfold DomainUser.can_make_request
  by_cases h : u.last_request_date ≠ some d <;> simp [h]

/-- The quota check does not change the language code. -/
lemma can_make_request_language (u : DomainUser) (rt : String) (d : ℤ) :
    ((u.can_make_request rt d).2).language_code = u.language_code := by
  unfold DomainUser.can_make_request
  by_cases h : u.last_request_date ≠ some d <;> simp [h]

/-- The counter increment does not change the user id. -/
lemma increment_request_count_id (u : DomainUser) (d : ℤ) :
    (u.increment_request_count d).id = u.id := by
  unfold DomainUser.increment_request_count
  by_cases h : u.last_request_date ≠ some d <;> simp [h]

/-- The counter increment does not change the language code. -/
lemma increment_request_count_language (u : DomainUser) (d : ℤ) :
    (u.increment_request_count d).language_code = u.language_code := by
  unfold DomainUser.increment_request_count
  by_cases h : u.last_request_date ≠ some d <;> simp [h]

/-- A found user matches the searched id. -/
lemma find_domain_user_id {users : List DomainUser} {user_id : ℕ} {u : DomainUser}
    (h : find_domain_user users user_id = some u) : u.id = user_id := by
  have := List.find?_some h
  simpa using this

/-- After storing an aggregate under an id that was found before, the
lookup returns the stored aggregate. -/
lemma find_domain_user_update {users : List DomainUser} {user_id : ℕ}
    {user u : DomainUser} (h : find_domain_user users user_id = some user)
    (hid : u.id = user_id) :
    find_domain_user (update_domain_user users u) user_id = some u := by
  induction users with
  | nil => simp [find_domain_user] at h
  | cons v vs ih =>
    by_cases hv : v.id = user_id
    · have hvu : v.id = u.id := by rw [hv, hid]
      simp [find_domain_user, update_domain_user, hvu, hid]
    · have hvu : ¬(v.id = u.id) := by rw [hid]; exact hv
      rw [find_domain_user, List.find?_cons_of_neg _ (by simpa using hv)] at h
      have := ih h
      rw [find_domain_user] at this ⊢
      rw [update_domain_user] at this ⊢
      simp only [List.map_cons, if_neg hvu]
      rw [List.find?_cons_of_neg _ (by simpa using hv)]
      exact this

/-- The intensity enum round-trips through its numeric value. -/
lemma EmotionIntensity.ofValue_val (i : EmotionIntensity) :
    EmotionIntensity.ofValue ((i.val : ℕ) : ℤ) = some i := by
  cases i <;> rfl

/-- Reconstructing a serialized valid insight gives the insight back. -/
lemma parse_cached_insight_serialize (i : EmotionInsight) (h : i.valid = true) :
    parse_cached_insight (serialize_insight i) = .ok i := by
  simp only [parse_cached_insight, serialize_insight, EmotionIntensity.ofValue_val]
  exact if_pos h

/-- Reconstructing a serialized list of valid insights gives the list back. -/
lemma parse_cached_insights_serialize (l : List EmotionInsight)
    (h : ∀ i ∈ l, i.valid = true) :
    parse_cached_insights (l.map serialize_insight) = .ok l := by
  induction l with
  | nil => rfl
  | cons i is ih =>
    rw [List.map_cons, parse_cached_insights,
      parse_cached_insight_serialize i (h i (by simp)),
      ih (fun j hj => h j (by simp [hj]))]

/-- Reconstructing a serialized translation with valid insights gives back
the same insights and mood score, with zero processing time. -/
lemma parse_cached_response_serialize (t : EmotionTranslation)
    (request : TranslationRequest) (user_id : ℕ) (child_id : Option ℕ)
    (h : ∀ i ∈ t.insights, i.valid = true) :
    parse_cached_response (serialize_translation t) request user_id child_id =
      .ok { request := request, user_id := user_id, child_id := child_id,
            insights := t.insights, mood_score := t.mood_score,
            processing_time_ms := some 0 } := by
  unfold parse_cached_response serialize_translation
  rw [parse_cached_insights_serialize t.insights h]

/-- Every insight built by the raw parser passed the validation. -/
lemma parse_raw_insight_valid {d : RawInsight} {i : EmotionInsight}
    (h : parse_raw_insight d = .ok i) : i.valid = true := by
  simp only [parse_raw_insight] at h
  split at h
  · cases h
  · split at h
    · cases h
      assumption
    · cases h

/-- Every insight produced by the raw-insight loop passed the validation. -/
lemma parse_raw_insights_valid :
    ∀ {l : List RawInsight} {il : List EmotionInsight},
      parse_raw_insights l = .ok il → ∀ i ∈ il, i.valid = true := by
  intro l
  induction l with
  | nil =>
    intro il h i hi
    cases h
    simp at hi
  | cons d ds ih =>
    intro il h i hi
    rw [parse_raw_insights] at h
    cases hd : parse_raw_insight d with
    | error e => rw [hd] at h; cases h
    | ok j =>
      rw [hd] at h
      cases hds : parse_raw_insights ds with
      | error e => rw [hds] at h; cases h
      | ok js =>
        rw [hds] at h
        cases h
        rcases List.mem_cons.mp hi with rfl | hi2
        · exact parse_raw_insight_valid hd
        · exact ih hds i hi2

/-- The default insight passes the validation. -/
lemma default_insights_valid : ∀ i ∈ default_insights, i.valid = true := by
  intro i hi
  simp only [default_insights, List.mem_singleton] at hi
  subst hi
  rw [EmotionInsight.valid, decide_eq_true_eq]
  refine ⟨by norm_num, by norm_num, by decide, by decide⟩

/-- Every insight returned by the reply parser passed the validation. -/
lemma parse_claude_response_valid (reply : ClaudeReply) :
    ∀ i ∈ parse_claude_response reply, i.valid = true := by
  cases reply with
  | malformed => exact default_insights_valid
  | insights l =>
    rw [parse_claude_response]
    cases hl : parse_raw_insights l with
    | error e => exact default_insights_valid
    | ok il => exact parse_raw_insights_valid hl

/-- A valid insight has non-negative confidence. -/
lemma valid_confidence_nonneg {i : EmotionInsight} (h : i.valid = true) :
    0 ≤ i.confidence := by
  rw [EmotionInsight.valid, decide_eq_true_eq] at h
  exact h.1

/-- Dict assignment preserves non-negative values. -/
lemma dict_insert_nonneg {acc : List (String × ℚ)} {kv : String × ℚ}
    (hacc : ∀ p ∈ acc, 0 ≤ p.2) (hkv : 0 ≤ kv.2) :
    ∀ p ∈ dict_insert acc kv, 0 ≤ p.2 := by
  intro p hp
  rw [dict_insert] at hp
  split at hp
  · obtain ⟨q, hq, rfl⟩ := List.mem_map.mp hp
    by_cases hq1 : q.1 = kv.1
    · simpa [hq1] using hkv
    · simpa [hq1] using hacc q hq
  · rcases List.mem_append.mp hp with h1 | h2
    · exact hacc p h1
    · simp only [List.mem_singleton] at h2
      subst h2
      exact hkv

/-- Folding dict assignments preserves non-negative values. -/
lemma foldl_dict_insert_nonneg :
    ∀ (pairs : List (String × ℚ)) (acc : List (String × ℚ)),
      (∀ p ∈ acc, 0 ≤ p.2) → (∀ p ∈ pairs, 0 ≤ p.2) →
      ∀ p ∈ pairs.foldl dict_insert acc, 0 ≤ p.2 := by
  intro pairs
  induction pairs with
  | nil => intro acc hacc _ p hp; exact hacc p hp
  | cons kv ps ih =>
    intro acc hacc hps p hp
    rw [List.foldl_cons] at hp
    exact ih (dict_insert acc kv)
      (dict_insert_nonneg hacc (hps kv (by simp)))
      (fun q hq => hps q (by simp [hq])) p hp

/-- The emotions dict of valid insights has non-negative weights. -/
lemma dict_of_nonneg {pairs : List (String × ℚ)} (h : ∀ p ∈ pairs, 0 ≤ p.2) :
    ∀ p ∈ dict_of pairs, 0 ≤ p.2 :=
  foldl_dict_insert_nonneg pairs [] (by simp) h

/-- `calculate_mood_score` succeeds on valid insights and only sets the
mood field. -/
lemma calculate_mood_score_ok (t : EmotionTranslation)
    (h : ∀ i ∈ t.insights, i.valid = true) :
    ∃ t', t.calculate_mood_score = .ok t' ∧ t'.request = t.request ∧
      t'.user_id = t.user_id ∧ t'.child_id = t.child_id ∧
      t'.insights = t.insights ∧ t'.processing_time_ms = t.processing_time_ms := by
  rw [EmotionTranslation.calculate_mood_score]
  by_cases he : t.insights = []
  · rw [if_pos he]
    exact ⟨t, rfl, rfl, rfl, rfl, rfl, rfl⟩
  · rw [if_neg he]
    have hpairs : ∀ p ∈ t.insights.map
        (fun i => (i.emotion, i.confidence * (i.intensity.val : ℚ) / 5)), 0 ≤ p.2 := by
      intro p hp
      obtain ⟨i, hi, rfl⟩ := List.mem_map.mp hp
      have hc := valid_confidence_nonneg (h i hi)
      positivity
    obtain ⟨v, hv, -, -⟩ := MoodScore.from_emotions_nonneg_ok _ (dict_of_nonneg hpairs)
    simp only [hv]
    exact ⟨{ t with mood_score := some v }, rfl, rfl, rfl, rfl, rfl, rfl⟩

/-- After a `set`, the key is found and carries the fresh entry. -/
lemma find_redis_set :
    ∀ (cache : List (String × CacheEntry)) (key : String)
      (payload : SerializedTranslation) (expire now : ℤ),
      (redis_set cache key payload expire now).find? (fun p => p.1 = key) =
        some (key, { payload := payload, expires_at := now + expire }) := by
  intro cache key payload expire now
  induction cache with
  | nil => simp [redis_set]
  | cons q qs ih =>
    by_cases hq : q.1 = key
    · have hany : (q :: qs).any (fun p => p.1 = key) = true := by
        simp [List.any_cons, hq]
      rw [redis_set, hany]
      simp [hq]
    · have hstep : redis_set (q :: qs) key payload expire now =
          q :: redis_set qs key payload expire now := by
        rw [redis_set, redis_set]
        by_cases h2 : qs.any (fun p => p.1 = key) = true
        · have hany : (q :: qs).any (fun p => p.1 = key) = true := by
            rw [List.any_cons, h2, Bool.or_true]
          rw [if_pos hany, if_pos h2]
          simp [hq]
        · have h2b : qs.any (fun p => p.1 = key) = false := by
            cases hb : qs.any (fun p => p.1 = key) with
            | false => rfl
            | true => exact absurd hb h2
          have hany : (q :: qs).any (fun p => p.1 = key) = false := by
            rw [List.any_cons, h2b, Bool.or_false]
            simp [hq]
          rw [hany, h2b]
          simp
      rw [hstep, List.find?_cons_of_neg _ (by simpa using hq)]
      exact ih

/-- A fresh cache entry is an unexpired hit within its TTL. -/
lemma redis_get_after_set (cache : List (String × CacheEntry)) (key : String)
    (payload : SerializedTranslation) (expire now now2 : ℤ)
    (h : now2 < now + expire) :
    redis_get (redis_set cache key payload expire now) key now2 = some payload := by
  rw [redis_get, find_redis_set]
  simp [h]

/-- The translation request assembled by `translate_emotion` when a context
age is supplied. -/
def mk_request (message : String) (age : ℕ) (lang : String) : TranslationRequest :=
  { original_message := message, child_age := age, parent_language := lang }

/-- Shape of the non-cached success path of `translate_emotion`: the result
carries the parsed insights with the measured processing time, and the new
state is exactly the old one with the serialized result cached under the
fingerprint, the translation appended to the repository, and the user
stored with an incremented counter. -/
lemma translate_success_shape
    (st : TranslatorState) (user_id : ℕ) (message : String) (child_id : Option ℕ)
    (age : ℕ) (today now : ℤ) (rep : ClaudeReply) (elapsed_ms : ℤ) (user : DomainUser)
    (hfind : find_domain_user st.users user_id = some user)
    (hq : (user.can_make_request "translation" today).1 = true)
    (hvalid : (mk_request message age
      (user.can_make_request "translation" today).2.language_code).valid = true)
    (hmiss : redis_get st.cache (get_cache_key (mk_request message age
      (user.can_make_request "translation" today).2.language_code)) now = none) :
    ∃ t1,
      translate_emotion st user_id message child_id (some age) true today now
          (.reply rep) elapsed_ms =
        (.ok t1,
         { users := update_domain_user st.users
             ((user.can_make_request "translation" today).2.increment_request_count today)
           translations := st.translations ++ [t1]
           cache := redis_set st.cache (get_cache_key (mk_request message age
             (user.can_make_request "translation" today).2.language_code))
             (serialize_translation t1) 3600 now }) ∧
      t1.insights = parse_claude_response rep ∧
      (∀ i ∈ t1.insights, i.valid = true) ∧
      t1.processing_time_ms = some elapsed_ms ∧
      t1.request = mk_request message age
        (user.can_make_request "translation" today).2.language_code ∧
      t1.user_id = user_id ∧ t1.child_id = child_id := by
  have hins : ∀ i ∈ ([] : List EmotionInsight) ++ parse_claude_response rep,
      i.valid = true := by
    simpa using parse_claude_response_valid rep
  obtain ⟨t', hcalc, hreq, huid, hcid, hinsights, hpt⟩ :=
    calculate_mood_score_ok
      { request := mk_request message age
          (user.can_make_request "translation" today).2.language_code
        user_id := user_id
        child_id := child_id
        insights := ([] : List EmotionInsight) ++ parse_claude_response rep }
      hins
  simp only [translate_emotion, hfind, hq, mk_request] at *
  simp only [Option.getD_some, hvalid, Bool.true_eq_false, if_false, if_true, hmiss, hcalc]
  refine ⟨{ request := t'.request
            user_id := t'.user_id
            child_id := t'.child_id
            insights := t'.insights
            mood_score := t'.mood_score
            processing_time_ms := some elapsed_ms }, rfl, ?_, ?_, rfl, ?_, ?_, ?_⟩
  · simpa using hinsights
  · intro i hi
    rw [hinsights] at hi
    exact hins i hi
  · exact hreq
  · exact huid
  · exact hcid

/-- Shape of the cache-hit path of `translate_emotion`: the state comes
back untouched, and when the cached payload deserializes, its entity is the
result. -/
lemma translate_cache_hit_shape
    (st : TranslatorState) (user_id : ℕ) (message : String) (child_id : Option ℕ)
    (age : ℕ) (today now : ℤ) (provider : ProviderOutcome) (elapsed_ms : ℤ)
    (user : DomainUser) (payload : SerializedTranslation)
    (hfind : find_domain_user st.users user_id = some user)
    (hq : (user.can_make_request "translation" today).1 = true)
    (hvalid : (mk_request message age
      (user.can_make_request "translation" today).2.language_code).valid = true)
    (hhit : redis_get st.cache (get_cache_key (mk_request message age
      (user.can_make_request "translation" today).2.language_code)) now = some payload) :
    (translate_emotion st user_id message child_id (some age) true today now
      provider elapsed_ms).2 = st ∧
    (∀ t, parse_cached_response payload (mk_request message age
        (user.can_make_request "translation" today).2.language_code) user_id child_id =
          .ok t →
      (translate_emotion st user_id message child_id (some age) true today now
        provider elapsed_ms).1 = .ok t) := by
  simp only [translate_emotion, hfind, hq, mk_request] at *
  simp only [Option.getD_some, hvalid, Bool.true_eq_false, if_false, if_true, hhit]
  cases hp : parse_cached_response payload
      { original_message := message, child_age := age
        parent_language := (user.can_make_request "translation" today).2.language_code }
      user_id child_id with
  | ok t => exact ⟨rfl, fun t2 ht2 => by cases ht2; rfl⟩
  | error e => exact ⟨rfl, fun t2 ht2 => by cases ht2⟩

/-! ## Claim theorems: cache verbatim replay (C5) -/

/-- C5: with caching enabled, a first translate call on a cache miss stores
its serialized result under the request fingerprint, and an identical call
within the TTL (that again passes the daily-quota gate, which the source
checks before the cache) replays the cached payload verbatim: identical
insight and mood payloads, with reported processing time equal to 0, and no
further state change. -/
theorem C5_cached_result_verbatim_zero_time
    (st : TranslatorState) (user_id : ℕ) (message : String) (child_id : Option ℕ)
    (age : ℕ) (today1 now1 today2 now2 : ℤ) (rep : ClaudeReply) (ms : ℤ)
    (user : DomainUser)
    (hfind : find_domain_user st.users user_id = some user)
    (hq1 : (user.can_make_request "translation" today1).1 = true)
    (hvalid : (mk_request message age
      (user.can_make_request "translation" today1).2.language_code).valid = true)
    (hmiss : redis_get st.cache (get_cache_key (mk_request message age
      (user.can_make_request "translation" today1).2.language_code)) now1 = none)
    (httl : now2 < now1 + 3600)
    (hq2 : ((((user.can_make_request "translation" today1).2.increment_request_count
      today1)).can_make_request "translation" today2).1 = true) :
    ∃ t1 st1 t2,
      translate_emotion st user_id message child_id (some age) true today1 now1
        (.reply rep) ms = (.ok t1, st1) ∧
      translate_emotion st1 user_id message child_id (some age) true today2 now2
        (.reply rep) ms = (.ok t2, st1) ∧
      t2.insights = t1.insights ∧ t2.mood_score = t1.mood_score ∧
      t2.processing_time_ms = some 0 := by
  obtain ⟨t1, hcall1, hins1, hval1, hpt1, hreq1, huid1, hcid1⟩ :=
    translate_success_shape st user_id message child_id age today1 now1 rep ms user
      hfind hq1 hvalid hmiss
  have hid2 : ((user.can_make_request "translation" today1).2.increment_request_count
      today1).id = user_id := by
    rw [increment_request_count_id, can_make_request_id]
    exact find_domain_user_id hfind
  have hfind2 : find_domain_user (update_domain_user st.users
      ((user.can_make_request "translation" today1).2.increment_request_count today1))
      user_id = some ((user.can_make_request "translation" today1).2.increment_request_count
      today1) := find_domain_user_update hfind hid2
  have hlang : (((((user.can_make_request "translation" today1).2.increment_request_count
      today1)).can_make_request "translation" today2).2).language_code =
      (user.can_make_request "translation" today1).2.language_code := by
    rw [can_make_request_language, increment_request_count_language]
  set st1 : TranslatorState :=
    { users := update_domain_user st.users
        ((user.can_make_request "translation" today1).2.increment_request_count today1)
      translations := st.translations ++ [t1]
      cache := redis_set st.cache (get_cache_key (mk_request message age
        (user.can_make_request "translation" today1).2.language_code))
        (serialize_translation t1) 3600 now1 } with hst1
  have hvalid2 : (mk_request message age
      (((((user.can_make_request "translation" today1).2.increment_request_count
        today1)).can_make_request "translation" today2).2).language_code).valid = true := by
    rw [hlang]
    exact hvalid
  have hhit2 : redis_get st1.cache (get_cache_key (mk_request message age
      (((((user.can_make_request "translation" today1).2.increment_request_count
        today1)).can_make_request "translation" today2).2).language_code)) now2 =
      some (serialize_translation t1) := by
    rw [hlang, hst1]
    exact redis_get_after_set _ _ _ _ _ _ httl
  obtain ⟨hstate2, himp⟩ := translate_cache_hit_shape st1 user_id message child_id age
    today2 now2 (.reply rep) ms _ (serialize_translation t1)
    (by rw [hst1]; exact hfind2) hq2 hvalid2 hhit2
  have hparse := parse_cached_response_serialize t1 (mk_request message age
    (((((user.can_make_request "translation" today1).2.increment_request_count
      today1)).can_make_request "translation" today2).2).language_code)
    user_id child_id hval1
  have hres2 := himp _ hparse
  refine ⟨t1, st1, { request := mk_request message age (((((user.can_make_request "translation" today1).2.increment_request_count today1)).can_make_request "translation" today2).2).language_code, user_id := user_id, child_id := child_id, insights := t1.insights, mood_score := t1.mood_score, processing_time_ms := some 0 }, hcall1, ?_, rfl, rfl, rfl⟩
  have hpair : translate_emotion st1 user_id message child_id (some age) true today2 now2
      (.reply rep) ms = ((translate_emotion st1 user_id message child_id (some age) true
      today2 now2 (.reply rep) ms).1, (translate_emotion st1 user_id message child_id
      (some age) true today2 now2 (.reply rep) ms).2) := rfl
  rw [hpair, hres2, hstate2]

/-- A user aggregate with all defaults, used by the witnesses. -/
def c5_user : DomainUser := { id := 1 }

/-- A one-user state with empty repository and cache. -/
def c5_state : TranslatorState := { users := [c5_user], translations := [], cache := [] }

/-- Witness for C5: a concrete fresh user, message "I am happy", and a
malformed reply (so the default insight is carried through both calls). -/
theorem C5_cached_result_witness :
    ∃ t1 st1 t2,
      translate_emotion c5_state 1 "I am happy" none (some 7) true 0 0
        (.reply .malformed) 42 = (.ok t1, st1) ∧
      translate_emotion st1 1 "I am happy" none (some 7) true 0 10
        (.reply .malformed) 42 = (.ok t2, st1) ∧
      t2.insights = t1.insights ∧ t2.mood_score = t1.mood_score ∧
      t2.processing_time_ms = some 0 :=
  C5_cached_result_verbatim_zero_time c5_state 1 "I am happy" none 7 0 0 0 10
    .malformed 42 c5_user (by decide) (by decide) (by decide) rfl (by decide) (by decide)

/-! ## Claim theorems: cache-hit frame (C9) -/

/-- After the quota check, the stored request date is the current day. -/
lemma can_make_request_last (u : DomainUser) (rt : String) (d : ℤ) :
    ((u.can_make_request rt d).2).last_request_date = some d := by
  unfold DomainUser.can_make_request
  by_cases h : u.last_request_date ≠ some d
  · simp [h]
  · push_neg at h
    simp [h]

/-- Incrementing right after the quota check adds exactly one request. -/
lemma increment_after_check (u : DomainUser) (rt : String) (d : ℤ) :
    (((u.can_make_request rt d).2).increment_request_count d).daily_requests_count =
      ((u.can_make_request rt d).2).daily_requests_count + 1 := by
  rw [DomainUser.increment_request_count]
  have h := can_make_request_last u rt d
  simp [h]

/-- C9: on a cache hit, `translate_emotion` returns before the repository
save and before the counter increment, so the whole persistent state comes
back unchanged; on the non-cached success path, by contrast, the repository
gains the new translation and the stored user carries a counter one higher. -/
theorem C9_cache_hit_leaves_state_unchanged
    (st : TranslatorState) (user_id : ℕ) (message : String) (child_id : Option ℕ)
    (age : ℕ) (today now : ℤ) (provider : ProviderOutcome) (ms : ℤ) (user : DomainUser)
    (hfind : find_domain_user st.users user_id = some user)
    (hq : (user.can_make_request "translation" today).1 = true)
    (hvalid : (mk_request message age
      (user.can_make_request "translation" today).2.language_code).valid = true) :
    (∀ payload, redis_get st.cache (get_cache_key (mk_request message age
        (user.can_make_request "translation" today).2.language_code)) now = some payload →
      (translate_emotion st user_id message child_id (some age) true today now
        provider ms).2 = st) ∧
    (∀ rep, redis_get st.cache (get_cache_key (mk_request message age
        (user.can_make_request "translation" today).2.language_code)) now = none →
      ∃ t1 st1, translate_emotion st user_id message child_id (some age) true today now
          (.reply rep) ms = (.ok t1, st1) ∧
        st1.translations = st.translations ++ [t1] ∧
        find_domain_user st1.users user_id =
          some (((user.can_make_request "translation" today).2).increment_request_count
            today) ∧
        (((user.can_make_request "translation" today).2).increment_request_count
          today).daily_requests_count =
          ((user.can_make_request "translation" today).2).daily_requests_count + 1) := by
  constructor
  · intro payload hhit
    exact (translate_cache_hit_shape st user_id message child_id age today now
      provider ms user payload hfind hq hvalid hhit).1
  · intro rep hmiss
    obtain ⟨t1, hcall, -, -, -, -, -, -⟩ :=
      translate_success_shape st user_id message child_id age today now rep ms user
        hfind hq hvalid hmiss
    have hid2 : ((user.can_make_request "translation" today).2.increment_request_count
        today).id = user_id := by
      rw [increment_request_count_id, can_make_request_id]
      exact find_domain_user_id hfind
    refine ⟨t1, _, hcall, rfl, ?_, increment_after_check user "translation" today⟩
    exact find_domain_user_update hfind hid2

/-- A serialized payload for the C9 witness cache entry. -/
def c9_payload : SerializedTranslation :=
  { insights := [], mood_score := none, processing_time_ms := some 42 }

/-- A one-user state whose cache already holds the fingerprint of
"I am happy" for a seven-year-old with English and supportive style. -/
def c9_state : TranslatorState :=
  { users := [c5_user]
    translations := []
    cache := [(get_cache_key (mk_request "I am happy" 7 "en"),
      { payload := c9_payload, expires_at := 100 })] }

/-- Witness for C9 at a concrete hit state and a concrete miss state. -/
theorem C9_cache_hit_witness :
    (translate_emotion c9_state 1 "I am happy" none (some 7) true 0 0
      (.reply .malformed) 42).2 = c9_state ∧
    ∃ t1 st1, translate_emotion c5_state 1 "I am happy" none (some 7) true 0 0
        (.reply .malformed) 42 = (.ok t1, st1) ∧
      st1.translations = c5_state.translations ++ [t1] :=
  ⟨(C9_cache_hit_leaves_state_unchanged c9_state 1 "I am happy" none 7 0 0
      (.reply .malformed) 42 c5_user (by decide) (by decide) (by decide)).1
      c9_payload (by decide),
   by
    obtain ⟨t1, st1, hc, ht, -, -⟩ :=
      (C9_cache_hit_leaves_state_unchanged c5_state 1 "I am happy" none 7 0 0
        (.reply .malformed) 42 c5_user (by decide) (by decide) (by decide)).2
        .malformed rfl
    exact ⟨t1, st1, hc, ht⟩⟩

/-! ## Claim theorems: subject daily quota (C6) -/

/-- A free-plan user whose counter sits at 5 inside the current window. -/
def c6_user : DomainUser :=
  { id := 1, daily_requests_count := 5, last_request_date := some 0 }

/-- A one-user state for the quota boundary. -/
def c6_state : TranslatorState := { users := [c6_user], translations := [], cache := [] }

/-- C6 counterexample: the claimed quota of 5 does not exist on this path.
A free-plan subject whose counter already reads 5 in the current window
makes its next (sixth) call and is not stopped by the quota gate: the call
passes the check (5 < 10) and proceeds all the way to the provider, whose
raise it reports, instead of failing with the daily rate-limit error before
any provider call. -/
theorem C6_sixth_call_passes_quota_gate :
    translate_emotion c6_state 1 "hi" none (some 7) true 0 0 (.raised "boom") 5 =
      (.error (.emotionTranslation ("Translation failed: " ++ "boom")), c6_state) ∧
    (.error (.emotionTranslation ("Translation failed: " ++ "boom")) :
      Except AppError EmotionTranslation) ≠ .error (.rateLimitExceeded "daily") := by
  constructor
  · rfl
  · intro h
    simp at h

/-- C6 amended: the daily quota of the cited translate path is the plan
limit of `SubscriptionPlan` (10 free, 100 premium, 50 trial; the
configuration value of 5 belongs to the other, uncached gateway). For a
subject in the current window the gate passes exactly while the counter is
below the plan limit; at or above it the call fails with the daily
rate-limit error, before any provider call (the outcome holds for every
provider behaviour) and with the state, hence the cache, unchanged; a
counter from an earlier window is reset to zero by the check itself. -/
theorem C6_quota_boundary_at_plan_limit
    (st : TranslatorState) (user_id : ℕ) (message : String)
    (child_id : Option ℕ) (context_age : Option ℕ) (use_cache : Bool) (today now : ℤ)
    (provider : ProviderOutcome) (ms : ℤ) (user : DomainUser)
    (hfind : find_domain_user st.users user_id = some user)
    (hwin : user.last_request_date = some today) :
    ((user.can_make_request "translation" today).1 = true ↔
      user.daily_requests_count < daily_translation_limit user.subscription_status) ∧
    (daily_translation_limit user.subscription_status ≤ user.daily_requests_count →
      translate_emotion st user_id message child_id context_age use_cache today now
        provider ms = (.error (.rateLimitExceeded "daily"), st)) ∧
    (∀ d2, user.last_request_date ≠ some d2 →
      (user.can_make_request "translation" d2).2.daily_requests_count = 0 ∧
      (user.can_make_request "translation" d2).1 = true) ∧
    daily_translation_limit "free" = 10 ∧ daily_translation_limit "premium" = 100 ∧
    daily_translation_limit "trial" = 50 := by
  have hcm : user.can_make_request "translation" today =
      (decide (user.daily_requests_count <
        daily_translation_limit user.subscription_status), user) := by
    rw [DomainUser.can_make_request]
    simp [hwin]
  refine ⟨?_, ?_, ?_, rfl, rfl, rfl⟩
  · rw [hcm]
    simp
  · intro hge
    have hfalse : (user.can_make_request "translation" today).1 = false := by
      rw [hcm]
      simpa using hge
    simp only [translate_emotion, hfind, hfalse]
    rfl
  · intro d2 hd2
    have hlim : 0 < daily_translation_limit user.subscription_status := by
      rw [daily_translation_limit]
      split_ifs <;> norm_num
    rw [DomainUser.can_make_request]
    simp [hd2, hlim]

/-- A free-plan user at the limit: counter 10 in the current window. -/
def c6_full_user : DomainUser :=
  { id := 1, daily_requests_count := 10, last_request_date := some 0 }

/-- A one-user state at the quota limit. -/
def c6_full_state : TranslatorState :=
  { users := [c6_full_user], translations := [], cache := [] }

/-- Witness for the amended C6: the free user at counter 10 is rejected with
the daily rate-limit error and an unchanged state; at counter 5 the gate
still passes; a stale window resets to zero. -/
theorem C6_quota_boundary_witness :
    translate_emotion c6_full_state 1 "hi" none (some 7) true 0 0 (.raised "x") 5 =
      (.error (.rateLimitExceeded "daily"), c6_full_state) ∧
    (c6_user.can_make_request "translation" 0).1 = true ∧
    (c6_full_user.can_make_request "translation" 1).2.daily_requests_count = 0 :=
  ⟨(C6_quota_boundary_at_plan_limit c6_full_state 1 "hi" none (some 7) true 0 0
      (.raised "x") 5 c6_full_user (by decide) (by decide)).2.1 (by decide),
   ((C6_quota_boundary_at_plan_limit c6_state 1 "hi" none (some 7) true 0 0
      (.raised "x") 5 c6_user (by decide) (by decide)).1).mpr (by decide),
   ((C6_quota_boundary_at_plan_limit c6_full_state 1 "hi" none (some 7) true 0 0
      (.raised "x") 5 c6_full_user (by decide) (by decide)).2.2.1 1 (by decide)).1⟩

/-! ## Claim theorems: provider rate limiting surfaces wrapped (C7) -/

/-- A fresh one-user state for the 429 scenario. -/
def c7_state : TranslatorState := { users := [c5_user], translations := [], cache := [] }

/-- C7 counterexample: when the provider call raises on an HTTP 429 (the
`ClaudeService` handler turns a 429 into an exception and passes no
retry-after; constructing its `RateLimitExceededError` with
`service_name`/`status_code` keywords is itself a `TypeError`), the blanket
handler of `translate_emotion` re-raises it as `EmotionTranslationException`.
The caller therefore receives the translation-failed error, not a rate-limit
error carrying a positive retry-after, and the state, hence the cache, is
unchanged. -/
theorem C7_429_surfaces_as_translation_failure :
    translate_emotion c7_state 1 "hi" none (some 7) true 0 0
        (.raised "Claude API rate limit exceeded") 5 =
      (.error (.emotionTranslation
        ("Translation failed: " ++ "Claude API rate limit exceeded")), c7_state) ∧
    (.error (.emotionTranslation
        ("Translation failed: " ++ "Claude API rate limit exceeded")) :
      Except AppError EmotionTranslation) ≠ .error (.rateLimitExceeded "daily") := by
  constructor
  · rfl
  · intro h
    simp at h

/-- C7 amended: every raise out of the provider call, an HTTP 429 included,
reaches the caller as `EmotionTranslationException` wrapping the raise text;
the state comes back exactly as it was, so nothing is written to the cache
under the request fingerprint (and no retry-after accompanies the error:
the surfaced exception type carries none). -/
theorem C7_provider_raise_wrapped_no_cache_write
    (st : TranslatorState) (user_id : ℕ) (message : String) (child_id : Option ℕ)
    (age : ℕ) (today now : ℤ) (ms : ℤ) (pmsg : String) (user : DomainUser)
    (hfind : find_domain_user st.users user_id = some user)
    (hq : (user.can_make_request "translation" today).1 = true)
    (hvalid : (mk_request message age
      (user.can_make_request "translation" today).2.language_code).valid = true)
    (hmiss : redis_get st.cache (get_cache_key (mk_request message age
      (user.can_make_request "translation" today).2.language_code)) now = none) :
    translate_emotion st user_id message child_id (some age) true today now
        (.raised pmsg) ms =
      (.error (.emotionTranslation ("Translation failed: " ++ pmsg)), st) := by
  simp only [translate_emotion, hfind, hq, mk_request] at *
  simp only [Option.getD_some, hvalid, Bool.true_eq_false, if_false, if_true, hmiss]

/-- Witness for the amended C7 at a concrete state and raise text. -/
theorem C7_provider_raise_witness :
    translate_emotion c7_state 1 "hi" none (some 7) true 0 0 (.raised "boom") 5 =
      (.error (.emotionTranslation ("Translation failed: " ++ "boom")), c7_state) :=
  C7_provider_raise_wrapped_no_cache_write c7_state 1 "hi" none 7 0 0 5 "boom" c5_user
    (by decide) (by decide) (by decide) rfl
